import Mathlib

/-!
DirectFB-fbdev, the framebuffer interposition shim.

A shallow embedding of `directfb-fbdev.c`.  The five interposed entry points
(`open`, `ioctl`, `mmap`, `munmap`, `close`) are functions over an explicit
`State` holding the file-scope statics of the C file.  Everything the shim
calls outside itself (the real libc functions reached through the cached
`dlsym` pointers, and the DirectFB library) is an oracle of `Env`, and every
such call is appended to `State.trace`.  Whether `DirectFBCreate` and
`CreateSurface` succeed is an oracle of `DfbResults`.

A call that dereferences a pointer that is `NULL` or whose object has been
released has no defined result; the entry points return `none` there.
-/

namespace DirectFBFbdev

/-! ## Machine integers -/

/-- Value of a C `int` expression, reduced to the 32-bit two's-complement range
(signed overflow is modelled as wrap-around). -/
def i32 (x : Int) : Int := (x + 2147483648) % 4294967296 - 2147483648

/-- Conversion of a C `int` to `__u32`. -/
def u32 (x : Int) : Nat := (x % 4294967296).toNat

/-! ## Constants of `linux/fb.h`, `errno.h` and `directfb.h` -/

/-- Request code `FBIOGET_VSCREENINFO` of `linux/fb.h`. -/
def FBIOGET_VSCREENINFO : Nat := 0x4600

/-- Request code `FBIOGET_FSCREENINFO` of `linux/fb.h`. -/
def FBIOGET_FSCREENINFO : Nat := 0x4602

/-- Visual `FB_VISUAL_TRUECOLOR` of `linux/fb.h`. -/
def FB_VISUAL_TRUECOLOR : Nat := 2

/-- Error number `EINVAL`. -/
def EINVAL : Int := 22

/-- Cooperative level `DFSCL_FULLSCREEN` of `directfb.h`. -/
def DFSCL_FULLSCREEN : Nat := 1

/-- Surface description flag `DSDESC_CAPS` of `directfb.h`. -/
def DSDESC_CAPS : Nat := 1

/-- Surface capability `DSCAPS_PRIMARY` of `directfb.h`. -/
def DSCAPS_PRIMARY : Nat := 1

/-- Lock flag `DSLF_WRITE` of `directfb.h`. -/
def DSLF_WRITE : Nat := 2

/-! ## Data model -/

/-- The enumeration `DFBSurfacePixelFormat`: the three formats the shim
distinguishes, and `other code` for every other enumerator. -/
inductive DFBSurfacePixelFormat where
  | DSPF_RGB16
  | DSPF_RGB24
  | DSPF_RGB32
  | other (code : Nat)
  deriving DecidableEq, Repr

/-- What `IDirectFBSurface` reports about itself: `GetSize` writes `width` and
`height` (C `int`s), `GetPixelFormat` writes `fmt`. -/
structure Surface where
  width : Int
  height : Int
  fmt : DFBSurfacePixelFormat
  deriving DecidableEq, Repr

/-- The struct `fb_bitfield` of `linux/fb.h`. -/
structure fb_bitfield where
  offset : Nat
  length : Nat
  msb_right : Nat
  deriving DecidableEq, Repr

/-- The struct `fb_var_screeninfo` of `linux/fb.h`, field by field. -/
structure fb_var_screeninfo where
  xres : Nat
  yres : Nat
  xres_virtual : Nat
  yres_virtual : Nat
  xoffset : Nat
  yoffset : Nat
  bits_per_pixel : Nat
  grayscale : Nat
  red : fb_bitfield
  green : fb_bitfield
  blue : fb_bitfield
  transp : fb_bitfield
  nonstd : Nat
  activate : Nat
  height : Nat
  width : Nat
  accel_flags : Nat
  pixclock : Nat
  left_margin : Nat
  right_margin : Nat
  upper_margin : Nat
  lower_margin : Nat
  hsync_len : Nat
  vsync_len : Nat
  sync : Nat
  vmode : Nat
  rotate : Nat
  colorspace : Nat
  reserved : List Nat
  deriving DecidableEq, Repr

/-- The struct `fb_fix_screeninfo` of `linux/fb.h`, field by field. -/
structure fb_fix_screeninfo where
  id : List Nat
  smem_start : Nat
  smem_len : Nat
  type : Nat
  type_aux : Nat
  visual : Nat
  xpanstep : Nat
  ypanstep : Nat
  ywrapstep : Nat
  line_length : Nat
  mmio_start : Nat
  mmio_len : Nat
  accel : Nat
  capabilities : Nat
  reserved : List Nat
  deriving DecidableEq, Repr

/-- An all-zero `fb_bitfield`. -/
def fb_bitfield_zero : fb_bitfield := { offset := 0, length := 0, msb_right := 0 }

/-- The result of `memset(fb_var, 0, sizeof(struct fb_var_screeninfo))`. -/
def fb_var_zero : fb_var_screeninfo :=
  { xres := 0, yres := 0, xres_virtual := 0, yres_virtual := 0, xoffset := 0, yoffset := 0,
    bits_per_pixel := 0, grayscale := 0,
    red := fb_bitfield_zero, green := fb_bitfield_zero, blue := fb_bitfield_zero,
    transp := fb_bitfield_zero,
    nonstd := 0, activate := 0, height := 0, width := 0, accel_flags := 0, pixclock := 0,
    left_margin := 0, right_margin := 0, upper_margin := 0, lower_margin := 0,
    hsync_len := 0, vsync_len := 0, sync := 0, vmode := 0, rotate := 0, colorspace := 0,
    reserved := [0, 0, 0, 0] }

/-- The result of `memset(fb_fix, 0, sizeof(struct fb_fix_screeninfo))`. -/
def fb_fix_zero : fb_fix_screeninfo :=
  { id := List.replicate 16 0, smem_start := 0, smem_len := 0, type := 0, type_aux := 0,
    visual := 0, xpanstep := 0, ypanstep := 0, ywrapstep := 0, line_length := 0,
    mmio_start := 0, mmio_len := 0, accel := 0, capabilities := 0, reserved := [0, 0] }

/-- Contents of the caller's memory that the third `ioctl` argument points to. -/
inductive ArgMem where
  | var (v : fb_var_screeninfo)
  | fix (f : fb_fix_screeninfo)
  | raw (bytes : List Nat)
  deriving DecidableEq, Repr

/-- A pointer-typed static together with the liveness of its pointee: `null`
(the zero initialiser), `live obj`, or `released` (the variable still holds
the address but the object behind it has been released). -/
inductive Ref (α : Type) where
  | null
  | live (obj : α)
  | released
  deriving DecidableEq, Repr

/-- Calls leaving the shim: the real libc functions and the DirectFB API. -/
inductive Event where
  | real_open (file : String) (oflag : Int) (mode : Option Nat)
  | real_close (fd : Int)
  | real_ioctl (fd : Int) (request : Nat) (arg : Nat)
  | real_mmap (addr : Nat) (len : Nat) (prot : Int) (flags : Int) (fd : Int) (offset : Int)
  | real_munmap (addr : Nat) (len : Nat)
  | DirectFBInit
  | DirectFBSetOption (name : String) (value : Option String)
  | DirectFBCreate
  | SetCooperativeLevel (level : Nat)
  | CreateSurface (flags : Nat) (caps : Nat)
  | GetSize
  | GetPixelFormat
  | Lock (flags : Nat)
  | Unlock
  | Surface_Release
  | DFB_Release
  deriving DecidableEq, Repr

/-- The five interposed symbols. -/
inductive EntryPoint where
  | open
  | ioctl
  | mmap
  | munmap
  | close
  deriving DecidableEq, Repr

/-- The environment of the shim.  Every oracle receives the history of external
calls made before it.  `real_open` receives the creation mode the caller of the
real function supplied, if any; `real_ioctl` receives the pointer and the memory
behind it and gives the return value and the memory afterwards.  `CreateSurface`
gives the primary surface that call makes when it succeeds and `Lock` the
address and pitch it writes through its out-parameters.  The shim ignores every
`DFBResult`; whether `DirectFBCreate` and `CreateSurface` succeed is given by
`DfbResults`, the calls on an existing surface or context are taken to
succeed. -/
structure Env where
  real_open : List Event → String → Int → Option Nat → Int
  real_close : List Event → Int → Int
  real_ioctl : List Event → Int → Nat → Nat → ArgMem → Int × ArgMem
  real_mmap : List Event → Nat → Nat → Int → Int → Int → Int → Nat
  real_munmap : List Event → Nat → Nat → Int
  CreateSurface : List Event → Surface
  Lock : List Event → Surface → Nat × Int
  errno_after : List Event → Int → Int

/-- The `DFBResult` of the two DirectFB calls that write a static of the shim,
as a function of the history before the call: `true` is `DFB_OK`.  A call that
fails leaves its out-parameter (`dfb`, `primary`) as it was. -/
structure DfbResults where
  create_ok : List Event → Bool
  surface_ok : List Event → Bool

/-- Both `DirectFBCreate` and `CreateSurface` always return `DFB_OK`. -/
def DfbResults.ok : DfbResults :=
  { create_ok := fun _ => true, surface_ok := fun _ => true }

/-- The file-scope statics of `directfb-fbdev.c`, `errno`, and two ghost logs:
`trace` (external calls, oldest first) and `entered` (entries into the
interposed functions, oldest first).  A cached function pointer is `true` once
`dlsym` has filled it. -/
structure State where
  fb_fd : Int
  fb_addr : Nat
  dfb : Ref Unit
  primary : Ref Surface
  _open : Bool
  _close : Bool
  _ioctl : Bool
  _mmap : Bool
  _munmap : Bool
  errno : Int
  trace : List Event
  entered : List EntryPoint
  deriving DecidableEq, Repr

/-- State of a freshly loaded shim: `fb_fd = -1`, `fb_addr = NULL`, all other
statics zero. -/
def State.init : State :=
  { fb_fd := -1, fb_addr := 0, dfb := Ref.null, primary := Ref.null,
    _open := false, _close := false, _ioctl := false, _mmap := false, _munmap := false,
    errno := 0, trace := [], entered := [] }

/-- Record one external call; it may leave any value in `errno`. -/
def State.call (env : Env) (s : State) (e : Event) : State :=
  { s with trace := s.trace ++ [e], errno := env.errno_after (s.trace ++ [e]) s.errno }

/-! ## `strstr` -/

/-- Whether `needle` starts at some position of the character list. -/
def strstr_from : List Char → List Char → Bool
  | [], needle => needle.isEmpty
  | c :: cs, needle => needle.isPrefixOf (c :: cs) || strstr_from cs needle

/-- The test `strstr(file, needle) != NULL`. -/
def strstr (file needle : String) : Bool := strstr_from file.toList needle.toList

/-! ## The interposed functions -/

/-- The function `open` of `directfb-fbdev.c`.  The variadic `mode` is accepted
and never read; the substitute descriptor is obtained by calling `open` itself
on "/dev/null".  No result is tested: `fb_fd` takes whatever that call returns,
`dfb` and `primary` are written only when `DirectFBCreate` and `CreateSurface`
succeed (`res`), and `dfb` is dereferenced in either case. -/
def open_dfb (env : Env) (res : DfbResults) (s : State) (file : String) (oflag : Int)
    (mode : Option Nat) : Option (Int × State) :=
  let s := { s with _open := true, entered := s.entered ++ [EntryPoint.open] }
  if h : s.fb_fd = -1 ∧ strstr file "/dev/fb" = true then
    match open_dfb env res s "/dev/null" oflag none with
    | none => none
    | some (fd, s) =>
      let s := { s with fb_fd := fd }
      let s := s.call env Event.DirectFBInit
      let s := s.call env (Event.DirectFBSetOption "no-vt" none)
      let created := res.create_ok s.trace
      let s := s.call env Event.DirectFBCreate
      let s := if created = true then { s with dfb := Ref.live () } else s
      match s.dfb with
      | Ref.live _ =>
        let s := s.call env (Event.SetCooperativeLevel DFSCL_FULLSCREEN)
        let made := res.surface_ok s.trace
        let surf := env.CreateSurface s.trace
        let s := s.call env (Event.CreateSurface DSDESC_CAPS DSCAPS_PRIMARY)
        let s := if made = true then { s with primary := Ref.live surf } else s
        some (s.fb_fd, s)
      | _ => none
  else
    some (env.real_open s.trace file oflag none, s.call env (Event.real_open file oflag none))
termination_by (if strstr file "/dev/fb" = true then (1 : Nat) else 0)
decreasing_by
  have hnull : strstr "/dev/null" "/dev/fb" = false := by decide
  simp [h.2, hnull]

/-- The function `open` where `DirectFBCreate` and `CreateSurface` return
`DFB_OK`. -/
def open_ (env : Env) (s : State) (file : String) (oflag : Int) (mode : Option Nat) :
    Option (Int × State) :=
  open_dfb env DfbResults.ok s file oflag mode

/-- The first inner `switch (fmt)`: the structure as it stands when the switch
is left, and whether a supported case was taken. -/
def fill_var (width height : Int) (fmt : DFBSurfacePixelFormat) : fb_var_screeninfo × Bool :=
  let fb_var := fb_var_zero
  let fb_var := { fb_var with xres := u32 width, xres_virtual := u32 width }
  let fb_var := { fb_var with yres := u32 height, yres_virtual := u32 height }
  match fmt with
  | DFBSurfacePixelFormat.DSPF_RGB16 =>
    ({ fb_var with
        bits_per_pixel := 16,
        red := { fb_var.red with offset := 11, length := 5 },
        green := { fb_var.green with offset := 5, length := 6 },
        blue := { fb_var.blue with length := 5 } }, true)
  | DFBSurfacePixelFormat.DSPF_RGB24 =>
    ({ fb_var with
        bits_per_pixel := 24,
        red := { fb_var.red with offset := 16, length := 8 },
        green := { fb_var.green with offset := 8, length := 8 },
        blue := { fb_var.blue with length := 8 } }, true)
  | DFBSurfacePixelFormat.DSPF_RGB32 =>
    ({ fb_var with
        bits_per_pixel := 32,
        transp := { fb_var.transp with offset := 24, length := 8 },
        red := { fb_var.red with offset := 16, length := 8 },
        green := { fb_var.green with offset := 8, length := 8 },
        blue := { fb_var.blue with length := 8 } }, true)
  | DFBSurfacePixelFormat.other _ => (fb_var, false)

/-- The second inner `switch (fmt)`: the structure as it stands when the switch
is left, and whether a supported case was taken.  The products are computed in
`int` and stored into `__u32` fields. -/
def fill_fix (width height : Int) (fmt : DFBSurfacePixelFormat) : fb_fix_screeninfo × Bool :=
  let fb_fix := fb_fix_zero
  let fb_fix := { fb_fix with visual := FB_VISUAL_TRUECOLOR }
  match fmt with
  | DFBSurfacePixelFormat.DSPF_RGB16 =>
    ({ fb_fix with
        smem_len := u32 (i32 (i32 (2 * width) * height)),
        line_length := u32 (i32 (2 * width)) }, true)
  | DFBSurfacePixelFormat.DSPF_RGB24 =>
    ({ fb_fix with
        smem_len := u32 (i32 (i32 (3 * width) * height)),
        line_length := u32 (i32 (3 * width)) }, true)
  | DFBSurfacePixelFormat.DSPF_RGB32 =>
    ({ fb_fix with
        smem_len := u32 (i32 (i32 (4 * width) * height)),
        line_length := u32 (i32 (4 * width)) }, true)
  | DFBSurfacePixelFormat.other _ => (fb_fix, false)

/-- The function `ioctl` of `directfb-fbdev.c`.  `arg` is the pointer passed by
the caller and `mem` the contents of the memory behind it; the result carries
the contents after the call. -/
def ioctl (env : Env) (s : State) (fd : Int) (request : Nat) (arg : Nat) (mem : ArgMem) :
    Option (Int × ArgMem × State) :=
  let s := { s with _ioctl := true, entered := s.entered ++ [EntryPoint.ioctl] }
  if fd = s.fb_fd then
    if request = FBIOGET_VSCREENINFO ∨ request = FBIOGET_FSCREENINFO then
      match s.primary with
      | Ref.live surf =>
        let width := surf.width
        let height := surf.height
        let s := s.call env Event.GetSize
        let fmt := surf.fmt
        let s := s.call env Event.GetPixelFormat
        if request = FBIOGET_VSCREENINFO then
          let r := fill_var width height fmt
          if r.2 then some (0, ArgMem.var r.1, s)
          else some (-1, ArgMem.var r.1, { s with errno := EINVAL })
        else
          let r := fill_fix width height fmt
          if r.2 then some (0, ArgMem.fix r.1, s)
          else some (-1, ArgMem.fix r.1, { s with errno := EINVAL })
      | _ => none
    else
      some (0, mem, s)
  else
    let r := env.real_ioctl s.trace fd request arg mem
    some (r.1, r.2, s.call env (Event.real_ioctl fd request arg))

/-- The function `mmap` of `directfb-fbdev.c`. -/
def mmap (env : Env) (s : State) (addr : Nat) (len : Nat) (prot : Int) (flags : Int)
    (fd : Int) (offset : Int) : Option (Nat × State) :=
  let s := { s with _mmap := true, entered := s.entered ++ [EntryPoint.mmap] }
  if fd = s.fb_fd then
    match s.primary with
    | Ref.live surf =>
      let locked := env.Lock s.trace surf
      let s := { s.call env (Event.Lock DSLF_WRITE) with fb_addr := locked.1 }
      let s := s.call env Event.Unlock
      some (s.fb_addr, s)
    | _ => none
  else
    some (env.real_mmap s.trace addr len prot flags fd offset,
          s.call env (Event.real_mmap addr len prot flags fd offset))

/-- The function `munmap` of `directfb-fbdev.c`. -/
def munmap (env : Env) (s : State) (addr : Nat) (len : Nat) : Option (Int × State) :=
  let s := { s with _munmap := true, entered := s.entered ++ [EntryPoint.munmap] }
  if addr = s.fb_addr then
    some (0, { s with fb_addr := 0 })
  else
    some (env.real_munmap s.trace addr len, s.call env (Event.real_munmap addr len))

/-- The function `close` of `directfb-fbdev.c`. -/
def close (env : Env) (s : State) (fd : Int) : Option (Int × State) :=
  let s := { s with _close := true, entered := s.entered ++ [EntryPoint.close] }
  if fd = s.fb_fd then
    match s.primary with
    | Ref.live _ =>
      let s := { s.call env Event.Surface_Release with primary := Ref.released }
      match s.dfb with
      | Ref.live _ =>
        let s := { s.call env Event.DFB_Release with dfb := Ref.released }
        some (0, { s with fb_fd := -1 })
      | _ => none
    | _ => none
  else
    some (env.real_close s.trace fd, s.call env (Event.real_close fd))

/-! ## A concrete environment and session, for evaluation -/

/-- An environment in which the real `open` hands out descriptor 3, every other
real call returns 0, the primary surface is 640x480 RGB32 and `Lock` reports
the address 0x10000 with pitch 2560. -/
def env0 : Env :=
  { real_open := fun _ _ _ _ => 3,
    real_close := fun _ _ => 0,
    real_ioctl := fun _ _ _ _ mem => (0, mem),
    real_mmap := fun _ _ _ _ _ _ _ => 0x20000,
    real_munmap := fun _ _ _ => 0,
    CreateSurface := fun _ =>
      { width := 640, height := 480, fmt := DFBSurfacePixelFormat.DSPF_RGB32 },
    Lock := fun _ _ => (0x10000, 2560),
    errno_after := fun _ e => e }

/-- A state with an active session on descriptor `fd` whose primary surface is
`surf`. -/
def State.session (fd : Int) (surf : Surface) : State :=
  { State.init with fb_fd := fd, dfb := Ref.live (), primary := Ref.live surf, _open := true }


/-- An environment like `env0` in which every real `open` fails with -1. -/
def env_fail : Env := { env0 with real_open := fun _ _ _ _ => -1 }

/-- `DirectFBCreate` succeeds and `CreateSurface` fails. -/
def DfbResults.no_surface : DfbResults :=
  { create_ok := fun _ => true, surface_ok := fun _ => false }

/-- `DirectFBCreate` fails. -/
def DfbResults.no_context : DfbResults :=
  { create_ok := fun _ => false, surface_ok := fun _ => false }

/-! ## Call sequences and live display objects -/

/-- One call of an interposed function, with its arguments. -/
inductive Call where
  | open (file : String) (oflag : Int) (mode : Option Nat)
  | ioctl (fd : Int) (request : Nat) (arg : Nat) (mem : ArgMem)
  | mmap (addr : Nat) (len : Nat) (prot : Int) (flags : Int) (fd : Int) (offset : Int)
  | munmap (addr : Nat) (len : Nat)
  | close (fd : Int)
  deriving DecidableEq, Repr

/-- The state after one call, `none` when the call has no defined result. -/
def step (env : Env) (res : DfbResults) (s : State) : Call → Option State
  | Call.open file oflag mode => (open_dfb env res s file oflag mode).map (fun r => r.2)
  | Call.ioctl fd request arg mem => (ioctl env s fd request arg mem).map (fun r => r.2.2)
  | Call.mmap addr len prot flags fd offset =>
    (mmap env s addr len prot flags fd offset).map (fun r => r.2)
  | Call.munmap addr len => (munmap env s addr len).map (fun r => r.2)
  | Call.close fd => (close env s fd).map (fun r => r.2)

/-- The state after a sequence of calls, made one after the other. -/
def run (env : Env) (res : DfbResults) (s : State) : List Call → Option State
  | [] => some s
  | c :: cs =>
    match step env res s c with
    | none => none
    | some s1 => run env res s1 cs

/-- Effect of an external call, made after the history `hist`, on the number
of display contexts: a `DirectFBCreate` that succeeds makes one,
`dfb->Release` destroys one. -/
def Event.ctx_delta (res : DfbResults) (hist : List Event) : Event → Int
  | Event.DirectFBCreate => if res.create_ok hist = true then 1 else 0
  | Event.DFB_Release => -1
  | _ => 0

/-- Effect of an external call, made after the history `hist`, on the number
of surfaces: a `CreateSurface` that succeeds makes one, `primary->Release`
destroys one. -/
def Event.surf_delta (res : DfbResults) (hist : List Event) : Event → Int
  | Event.CreateSurface _ _ => if res.surface_ok hist = true then 1 else 0
  | Event.Surface_Release => -1
  | _ => 0

/-- Sum of the effects of the calls `tr`, made one after the other after the
history `hist`. -/
def count_from (delta : List Event → Event → Int) : List Event → List Event → Int
  | _, [] => 0
  | hist, e :: rest => delta hist e + count_from delta (hist ++ [e]) rest

/-- Display contexts created and not yet released in a history. -/
def live_contexts (res : DfbResults) (tr : List Event) : Int :=
  count_from (Event.ctx_delta res) [] tr

/-- Surfaces created and not yet released in a history. -/
def live_surfaces (res : DfbResults) (tr : List Event) : Int :=
  count_from (Event.surf_delta res) [] tr

/-- The history at the moment an intercepted `open` calls `CreateSurface`. -/
def setup_history (s : State) (oflag : Int) : List Event :=
  s.trace ++
    [Event.real_open "/dev/null" oflag none, Event.DirectFBInit,
      Event.DirectFBSetOption "no-vt" none, Event.DirectFBCreate,
      Event.SetCooperativeLevel DFSCL_FULLSCREEN]

/-- For a call made in state `s`: if it is an `open` that takes the intercepted
branch, the real `open` of "/dev/null" it makes does not return -1 and its
`CreateSurface` succeeds.  Nothing is asked of any other call. -/
def SetupSucceeds (env : Env) (res : DfbResults) (s : State) : Call → Prop
  | Call.open file oflag _ =>
    s.fb_fd = -1 → strstr file "/dev/fb" = true →
      env.real_open s.trace "/dev/null" oflag none ≠ -1 ∧
        res.surface_ok (setup_history s oflag) = true
  | _ => True

/-- The condition `SetupSucceeds` at every call of a sequence run from `s`. -/
def SetupSucceedsAlong (env : Env) (res : DfbResults) : State → List Call → Prop
  | _, [] => True
  | s, c :: cs =>
    SetupSucceeds env res s c ∧
      ∀ s1, step env res s c = some s1 → SetupSucceedsAlong env res s1 cs

/-- The statics and the history agree on the session: with `fb_fd = -1` no
context or surface is live and neither `dfb` nor `primary` is usable;
otherwise exactly one of each is live and `dfb`, `primary` point to them. -/
def SessionInv (res : DfbResults) (s : State) : Prop :=
  (s.fb_fd = -1 →
    (∀ surf, s.primary ≠ Ref.live surf) ∧ (∀ u, s.dfb ≠ Ref.live u) ∧
      live_contexts res s.trace = 0 ∧ live_surfaces res s.trace = 0) ∧
  (s.fb_fd ≠ -1 →
    (∃ surf, s.primary = Ref.live surf) ∧ s.dfb = Ref.live () ∧
      live_contexts res s.trace = 1 ∧ live_surfaces res s.trace = 1)

/-- Whether bit number `bit` of a pixel belongs to the channel: it lies in
`[offset, offset + length)`. -/
def fb_bitfield.covers (b : fb_bitfield) (bit : Nat) : Prop :=
  b.offset ≤ bit ∧ bit < b.offset + b.length

/-! ## Arithmetic and string helpers -/

theorem i32_of_range (x : Int) (h0 : -2147483648 ≤ x) (h1 : x < 2147483648) : i32 x = x := by
  unfold i32
  rw [Int.emod_eq_of_lt (by omega) (by omega)]
  omega

theorem u32_natCast (n : Nat) (h : n < 4294967296) : u32 (n : Int) = n := by
  unfold u32
  rw [Int.emod_eq_of_lt (by omega) (by omega)]
  simp

/-- The scan `strstr_from` succeeds exactly when the needle occurs as a
contiguous block of the character list. -/
theorem strstr_from_iff (l n : List Char) :
    strstr_from l n = true ↔ ∃ pre post, l = pre ++ n ++ post := by
  induction l with
  | nil =>
    simp [strstr_from]
  | cons c cs ih =>
    simp only [strstr_from, Bool.or_eq_true, ih, List.isPrefixOf_iff_prefix]
    constructor
    · rintro (⟨t, ht⟩ | ⟨pre, post, h⟩)
      · exact ⟨[], t, by simpa using ht.symm⟩
      · exact ⟨c :: pre, post, by simp [h]⟩
    · rintro ⟨pre, post, h⟩
      cases pre with
      | nil => exact Or.inl ⟨post, by simpa using h.symm⟩
      | cons d pre =>
        simp only [List.cons_append, List.cons.injEq] at h
        exact Or.inr ⟨pre, post, h.2⟩

/-! ## Screen-info queries -/

/-- C1 (counterexample): an RGB16 session whose surface reports width -1: the
query returns 0 and the 32-bit fields `xres` and `xres_virtual` hold
4294967295, which is not the width. -/
theorem ioctl_vscreeninfo_negative_width :
    ∃ v s1, ioctl env0 (State.session 3 ⟨-1, 480, DFBSurfacePixelFormat.DSPF_RGB16⟩) 3
        FBIOGET_VSCREENINFO 0 (ArgMem.raw []) = some (0, ArgMem.var v, s1) ∧
      v.xres = 4294967295 ∧ v.xres_virtual = 4294967295 ∧ (v.xres : Int) ≠ -1 := by
  refine ⟨_, _, rfl, rfl, rfl, by decide⟩

/-- C1 (amended): on the session descriptor with a live surface of width
`w >= 0` and height `h' >= 0` (C `int`s), `FBIOGET_VSCREENINFO` returns 0 and
leaves in `arg`, whatever it held before, the all-zero structure except for
`xres = xres_virtual = w`, `yres = yres_virtual = h'` and the depth and channel
layout of the surface format (RGB16: 16 bits, red 11/5, green 5/6, blue 0/5;
RGB24: 24 bits, red 16/8, green 8/8, blue 0/8; RGB32: 32 bits, transp 24/8,
red 16/8, green 8/8, blue 0/8). -/
theorem ioctl_vscreeninfo (env : Env) (s : State) (surf : Surface) (arg : Nat) (old : ArgMem)
    (w h : Nat) (hlive : s.primary = Ref.live surf)
    (hw : surf.width = (w : Int)) (hh : surf.height = (h : Int))
    (hwr : w < 2 ^ 31) (hhr : h < 2 ^ 31) :
    ∃ s1,
      (surf.fmt = DFBSurfacePixelFormat.DSPF_RGB16 →
        ioctl env s s.fb_fd FBIOGET_VSCREENINFO arg old =
          some (0, ArgMem.var
            { fb_var_zero with
              xres := w, xres_virtual := w, yres := h, yres_virtual := h,
              bits_per_pixel := 16,
              red := { offset := 11, length := 5, msb_right := 0 },
              green := { offset := 5, length := 6, msb_right := 0 },
              blue := { offset := 0, length := 5, msb_right := 0 },
              transp := { offset := 0, length := 0, msb_right := 0 } }, s1)) ∧
      (surf.fmt = DFBSurfacePixelFormat.DSPF_RGB24 →
        ioctl env s s.fb_fd FBIOGET_VSCREENINFO arg old =
          some (0, ArgMem.var
            { fb_var_zero with
              xres := w, xres_virtual := w, yres := h, yres_virtual := h,
              bits_per_pixel := 24,
              red := { offset := 16, length := 8, msb_right := 0 },
              green := { offset := 8, length := 8, msb_right := 0 },
              blue := { offset := 0, length := 8, msb_right := 0 },
              transp := { offset := 0, length := 0, msb_right := 0 } }, s1)) ∧
      (surf.fmt = DFBSurfacePixelFormat.DSPF_RGB32 →
        ioctl env s s.fb_fd FBIOGET_VSCREENINFO arg old =
          some (0, ArgMem.var
            { fb_var_zero with
              xres := w, xres_virtual := w, yres := h, yres_virtual := h,
              bits_per_pixel := 32,
              red := { offset := 16, length := 8, msb_right := 0 },
              green := { offset := 8, length := 8, msb_right := 0 },
              blue := { offset := 0, length := 8, msb_right := 0 },
              transp := { offset := 24, length := 8, msb_right := 0 } }, s1)) := by
  have ew : u32 surf.width = w := by rw [hw]; exact u32_natCast _ (by omega)
  have eh : u32 surf.height = h := by rw [hh]; exact u32_natCast _ (by omega)
  refine ⟨({ s with _ioctl := true, entered := s.entered ++ [EntryPoint.ioctl] }.call env
    Event.GetSize).call env Event.GetPixelFormat, ?_, ?_, ?_⟩
  · intro hf
    simp [ioctl, hlive, hf, fill_var, FBIOGET_VSCREENINFO, fb_var_zero, fb_bitfield_zero,
      ew, eh]
  · intro hf
    simp [ioctl, hlive, hf, fill_var, FBIOGET_VSCREENINFO, fb_var_zero, fb_bitfield_zero,
      ew, eh]
  · intro hf
    simp [ioctl, hlive, hf, fill_var, FBIOGET_VSCREENINFO, fb_var_zero, fb_bitfield_zero,
      ew, eh]

/-- C1 (witness): a 640x480 RGB32 session, with arbitrary bytes behind `arg`. -/
theorem ioctl_vscreeninfo_witness :
    (State.session 3 ⟨640, 480, DFBSurfacePixelFormat.DSPF_RGB32⟩).primary =
        Ref.live ⟨640, 480, DFBSurfacePixelFormat.DSPF_RGB32⟩ ∧
      ∃ s1, ioctl env0 (State.session 3 ⟨640, 480, DFBSurfacePixelFormat.DSPF_RGB32⟩) 3
          FBIOGET_VSCREENINFO 0 (ArgMem.raw [1, 2, 3]) =
        some (0, ArgMem.var
          { fb_var_zero with
            xres := 640, xres_virtual := 640, yres := 480, yres_virtual := 480,
            bits_per_pixel := 32,
            red := { offset := 16, length := 8, msb_right := 0 },
            green := { offset := 8, length := 8, msb_right := 0 },
            blue := { offset := 0, length := 8, msb_right := 0 },
            transp := { offset := 24, length := 8, msb_right := 0 } }, s1) := by
  refine ⟨rfl, ?_⟩
  obtain ⟨s1, -, -, h32⟩ :=
    ioctl_vscreeninfo env0 (State.session 3 ⟨640, 480, DFBSurfacePixelFormat.DSPF_RGB32⟩)
      ⟨640, 480, DFBSurfacePixelFormat.DSPF_RGB32⟩ 0 (ArgMem.raw [1, 2, 3]) 640 480 rfl rfl rfl
      (by decide) (by decide)
  exact ⟨s1, h32 rfl⟩

/-- C2 (counterexample): an RGB24 surface of width 1431655766 and height 0 meets
`w >= 0`, `h' >= 0` and `3*w*h' < 2^31`, and the query returns 0, yet the
32-bit field `line_length` holds 2 and not `3*w = 4294967298`. -/
theorem ioctl_fscreeninfo_line_length_wraps :
    (0 : Int) ≤ 1431655766 ∧ (0 : Int) ≤ 0 ∧ (3 : Int) * 1431655766 * 0 < 2 ^ 31 ∧
      ∃ f s1,
        ioctl env0 (State.session 3 ⟨1431655766, 0, DFBSurfacePixelFormat.DSPF_RGB24⟩) 3
            FBIOGET_FSCREENINFO 0 (ArgMem.raw []) = some (0, ArgMem.fix f, s1) ∧
          f.line_length = 2 ∧ f.line_length ≠ 3 * 1431655766 := by
  refine ⟨by decide, by decide, by decide, _, _, rfl, rfl, by decide⟩

/-- C2 (amended): on the session descriptor with a live surface of width
`w >= 0` and height `h' >= 0`, if the `int` products do not overflow
(`B*w < 2^31` and `B*w*h' < 2^31`, with `B` = 2, 3, 4 for RGB16, RGB24, RGB32),
`FBIOGET_FSCREENINFO` returns 0 and leaves in `arg`, whatever it held before,
the all-zero structure except `visual = FB_VISUAL_TRUECOLOR`,
`line_length = B*w` and `smem_len = B*w*h'`. -/
theorem ioctl_fscreeninfo (env : Env) (s : State) (surf : Surface) (arg : Nat) (old : ArgMem)
    (w h : Nat) (hlive : s.primary = Ref.live surf)
    (hw : surf.width = (w : Int)) (hh : surf.height = (h : Int)) :
    ∃ s1,
      (surf.fmt = DFBSurfacePixelFormat.DSPF_RGB16 → 2 * w < 2 ^ 31 → 2 * w * h < 2 ^ 31 →
        ioctl env s s.fb_fd FBIOGET_FSCREENINFO arg old =
          some (0, ArgMem.fix
            { fb_fix_zero with
              visual := FB_VISUAL_TRUECOLOR, line_length := 2 * w, smem_len := 2 * w * h },
            s1)) ∧
      (surf.fmt = DFBSurfacePixelFormat.DSPF_RGB24 → 3 * w < 2 ^ 31 → 3 * w * h < 2 ^ 31 →
        ioctl env s s.fb_fd FBIOGET_FSCREENINFO arg old =
          some (0, ArgMem.fix
            { fb_fix_zero with
              visual := FB_VISUAL_TRUECOLOR, line_length := 3 * w, smem_len := 3 * w * h },
            s1)) ∧
      (surf.fmt = DFBSurfacePixelFormat.DSPF_RGB32 → 4 * w < 2 ^ 31 → 4 * w * h < 2 ^ 31 →
        ioctl env s s.fb_fd FBIOGET_FSCREENINFO arg old =
          some (0, ArgMem.fix
            { fb_fix_zero with
              visual := FB_VISUAL_TRUECOLOR, line_length := 4 * w, smem_len := 4 * w * h },
            s1)) := by
  have key : ∀ b : Nat, b * w < 2 ^ 31 → b * w * h < 2 ^ 31 →
      u32 (i32 ((b : Int) * surf.width)) = b * w ∧
        u32 (i32 (i32 ((b : Int) * surf.width) * surf.height)) = b * w * h := by
    intro b h1 h2
    have c1 : (b : Int) * (w : Int) = ((b * w : Nat) : Int) := by push_cast; rfl
    have c2 : ((b * w : Nat) : Int) * (h : Int) = ((b * w * h : Nat) : Int) := by
      push_cast; rfl
    have e1 : i32 ((b : Int) * surf.width) = ((b * w : Nat) : Int) := by
      rw [hw, c1]
      exact i32_of_range _ (by omega) (by omega)
    have e2 : i32 (((b * w : Nat) : Int) * surf.height) = ((b * w * h : Nat) : Int) := by
      rw [hh, c2]
      exact i32_of_range _ (by omega) (by omega)
    rw [e1, e2]
    exact ⟨u32_natCast _ (by omega), u32_natCast _ (by omega)⟩
  refine ⟨({ s with _ioctl := true, entered := s.entered ++ [EntryPoint.ioctl] }.call env
    Event.GetSize).call env Event.GetPixelFormat, ?_, ?_, ?_⟩
  · intro hf h1 h2
    obtain ⟨k1, k2⟩ := key 2 h1 h2
    simp only [Nat.cast_ofNat] at k1 k2
    simp [ioctl, hlive, hf, fill_fix, FBIOGET_VSCREENINFO, FBIOGET_FSCREENINFO, fb_fix_zero,
      k1, k2]
  · intro hf h1 h2
    obtain ⟨k1, k2⟩ := key 3 h1 h2
    simp only [Nat.cast_ofNat] at k1 k2
    simp [ioctl, hlive, hf, fill_fix, FBIOGET_VSCREENINFO, FBIOGET_FSCREENINFO, fb_fix_zero,
      k1, k2]
  · intro hf h1 h2
    obtain ⟨k1, k2⟩ := key 4 h1 h2
    simp only [Nat.cast_ofNat] at k1 k2
    simp [ioctl, hlive, hf, fill_fix, FBIOGET_VSCREENINFO, FBIOGET_FSCREENINFO, fb_fix_zero,
      k1, k2]

/-- C2 (witness): a 640x480 RGB32 session reports `line_length = 2560` and
`smem_len = 1228800`. -/
theorem ioctl_fscreeninfo_witness :
    (State.session 3 ⟨640, 480, DFBSurfacePixelFormat.DSPF_RGB32⟩).primary =
        Ref.live ⟨640, 480, DFBSurfacePixelFormat.DSPF_RGB32⟩ ∧
      ∃ s1, ioctl env0 (State.session 3 ⟨640, 480, DFBSurfacePixelFormat.DSPF_RGB32⟩) 3
          FBIOGET_FSCREENINFO 0 (ArgMem.raw [1, 2, 3]) =
        some (0, ArgMem.fix
          { fb_fix_zero with visual := 2, line_length := 2560, smem_len := 1228800 }, s1) := by
  refine ⟨rfl, ?_⟩
  obtain ⟨s1, -, -, h32⟩ :=
    ioctl_fscreeninfo env0 (State.session 3 ⟨640, 480, DFBSurfacePixelFormat.DSPF_RGB32⟩)
      ⟨640, 480, DFBSurfacePixelFormat.DSPF_RGB32⟩ 0 (ArgMem.raw [1, 2, 3]) 640 480 rfl rfl rfl
  exact ⟨s1, h32 rfl (by decide) (by decide)⟩


/-- C4: on the session descriptor with a live surface, each of the two
screen-info queries returns -1 with `errno = EINVAL` exactly when the surface
format is none of RGB16, RGB24, RGB32, and returns 0 otherwise; in the failing
case `fb_fd` and `fb_addr` are as before and the only external calls made are
`GetSize` and `GetPixelFormat`. -/
theorem ioctl_screeninfo_einval (env : Env) (s : State) (surf : Surface) (request : Nat)
    (arg : Nat) (old : ArgMem) (hlive : s.primary = Ref.live surf)
    (hreq : request = FBIOGET_VSCREENINFO ∨ request = FBIOGET_FSCREENINFO) :
    ∃ r m s1, ioctl env s s.fb_fd request arg old = some (r, m, s1) ∧
      ((r = -1 ∧ s1.errno = EINVAL) ↔
        (surf.fmt ≠ DFBSurfacePixelFormat.DSPF_RGB16 ∧
          surf.fmt ≠ DFBSurfacePixelFormat.DSPF_RGB24 ∧
          surf.fmt ≠ DFBSurfacePixelFormat.DSPF_RGB32)) ∧
      ((surf.fmt = DFBSurfacePixelFormat.DSPF_RGB16 ∨
          surf.fmt = DFBSurfacePixelFormat.DSPF_RGB24 ∨
          surf.fmt = DFBSurfacePixelFormat.DSPF_RGB32) → r = 0) ∧
      (r = -1 →
        s1.fb_fd = s.fb_fd ∧ s1.fb_addr = s.fb_addr ∧
          s1.trace = s.trace ++ [Event.GetSize, Event.GetPixelFormat]) := by
  cases hio : ioctl env s s.fb_fd request arg old with
  | none =>
    rcases hreq with hreq | hreq <;>
      simp [ioctl, hlive, hreq, FBIOGET_VSCREENINFO, FBIOGET_FSCREENINFO] at hio <;>
      split at hio <;> simp at hio
  | some p =>
    obtain ⟨r, m, s1⟩ := p
    refine ⟨r, m, s1, rfl, ?_⟩
    rcases hreq with hreq | hreq <;> cases hfmt : surf.fmt <;>
      simp [ioctl, hlive, hreq, hfmt, fill_var, fill_fix, FBIOGET_VSCREENINFO,
        FBIOGET_FSCREENINFO] at hio <;>
      obtain ⟨rfl, -, rfl⟩ := hio <;>
      simp [State.call]

/-- C4 (witness): a session whose surface has another format fails both ways. -/
theorem ioctl_screeninfo_einval_witness :
    ∃ r m s1, ioctl env0 (State.session 3 ⟨640, 480, DFBSurfacePixelFormat.other 0⟩) 3
        FBIOGET_FSCREENINFO 0 (ArgMem.raw []) = some (r, m, s1) ∧ r = -1 ∧ s1.errno = EINVAL := by
  obtain ⟨r, m, s1, h, hiff, -, -⟩ :=
    ioctl_screeninfo_einval env0 (State.session 3 ⟨640, 480, DFBSurfacePixelFormat.other 0⟩)
      ⟨640, 480, DFBSurfacePixelFormat.other 0⟩ FBIOGET_FSCREENINFO 0 (ArgMem.raw []) rfl
      (Or.inr rfl)
  exact ⟨r, m, s1, h, hiff.mpr ⟨by decide, by decide, by decide⟩⟩

/-- C3 (failing inputs): in the state of a process that has opened nothing,
`mmap` with descriptor -1 (an anonymous mapping) and `close(-1)` match the
sentinel `fb_fd = -1` and go through the null `primary`; `munmap(NULL, len)`
matches the sentinel `fb_addr = NULL` and `ioctl(-1, request, arg)` with a
request that is no screen-info query matches `fb_fd`: both return 0 without
any call of the real implementation. -/
theorem sentinel_calls_are_intercepted (env : Env) :
    mmap env State.init 0 4096 3 0x22 (-1) 0 = none ∧
      close env State.init (-1) = none ∧
      (∃ s1, munmap env State.init 0 4096 = some (0, s1) ∧ s1.trace = []) ∧
      (∃ s1, ioctl env State.init (-1) 0x5401 0 (ArgMem.raw []) = some (0, ArgMem.raw [], s1) ∧
        s1.trace = []) := by
  refine ⟨rfl, rfl, ⟨_, rfl, rfl⟩, ⟨_, rfl, rfl⟩⟩


/-! ## `open` -/

/-- A forwarded `open`, whatever the DirectFB results: the real `open` receives
the path and the flags, and no third argument. -/
theorem open_dfb_forwarded (env : Env) (res : DfbResults) (s : State) (file : String)
    (oflag : Int) (mode : Option Nat) (h : s.fb_fd ≠ -1 ∨ strstr file "/dev/fb" = false) :
    open_dfb env res s file oflag mode =
      some (env.real_open s.trace file oflag none,
        { s with _open := true, entered := s.entered ++ [EntryPoint.open] }.call env
          (Event.real_open file oflag none)) := by
  rw [open_dfb]
  rcases h with h | h <;> simp [h, State.call]

/-- An intercepted `open` whose `DirectFBCreate` succeeds: the six external
calls in program order, and `primary` written only if `CreateSurface`
succeeds. -/
theorem open_dfb_intercepted (env : Env) (res : DfbResults) (s : State) (file : String)
    (oflag : Int) (mode : Option Nat) (hfd : s.fb_fd = -1)
    (hpath : strstr file "/dev/fb" = true)
    (hcreate : res.create_ok (s.trace ++
      [Event.real_open "/dev/null" oflag none, Event.DirectFBInit,
        Event.DirectFBSetOption "no-vt" none]) = true) :
    ∃ s1, open_dfb env res s file oflag mode =
        some (env.real_open s.trace "/dev/null" oflag none, s1) ∧
      s1.fb_fd = env.real_open s.trace "/dev/null" oflag none ∧
      s1.fb_addr = s.fb_addr ∧
      s1.dfb = Ref.live () ∧
      s1.primary = (if res.surface_ok (setup_history s oflag) = true
        then Ref.live (env.CreateSurface (setup_history s oflag)) else s.primary) ∧
      s1.trace = s.trace ++
        [Event.real_open "/dev/null" oflag none, Event.DirectFBInit,
          Event.DirectFBSetOption "no-vt" none, Event.DirectFBCreate,
          Event.SetCooperativeLevel DFSCL_FULLSCREEN,
          Event.CreateSurface DSDESC_CAPS DSCAPS_PRIMARY] ∧
      s1.entered = s.entered ++ [EntryPoint.open, EntryPoint.open] := by
  have hnull : strstr "/dev/null" "/dev/fb" = false := by decide
  rw [open_dfb]
  simp only [hfd, hpath, and_self, dite_true]
  rw [open_dfb_forwarded env res _ "/dev/null" oflag none (Or.inr hnull)]
  simp only [State.call, List.append_assoc, List.singleton_append, List.cons_append,
    List.nil_append] at hcreate ⊢
  simp only [hcreate, if_true]
  by_cases hs : res.surface_ok (setup_history s oflag) = true
  · have hs2 := hs
    simp only [setup_history, List.append_assoc, List.singleton_append, List.cons_append,
      List.nil_append] at hs2
    simp [hs, hs2, setup_history]
  · have hs2 := hs
    simp only [setup_history, List.append_assoc, List.singleton_append, List.cons_append,
      List.nil_append] at hs2
    simp [hs, hs2, setup_history]

/-- An intercepted `open` whose `DirectFBCreate` fails while `dfb` points to no
live context: the call through `dfb` that follows has no defined result. -/
theorem open_dfb_create_fails (env : Env) (res : DfbResults) (s : State) (file : String)
    (oflag : Int) (mode : Option Nat) (hfd : s.fb_fd = -1)
    (hpath : strstr file "/dev/fb" = true)
    (hcreate : res.create_ok (s.trace ++
      [Event.real_open "/dev/null" oflag none, Event.DirectFBInit,
        Event.DirectFBSetOption "no-vt" none]) = false)
    (hdfb : ∀ u, s.dfb ≠ Ref.live u) :
    open_dfb env res s file oflag mode = none := by
  have hnull : strstr "/dev/null" "/dev/fb" = false := by decide
  rw [open_dfb]
  simp only [hfd, hpath, and_self, dite_true]
  rw [open_dfb_forwarded env res _ "/dev/null" oflag none (Or.inr hnull)]
  simp only [State.call, List.append_assoc, List.singleton_append, List.cons_append,
    List.nil_append] at hcreate ⊢
  simp only [hcreate]
  cases hd : s.dfb with
  | null => simp
  | released => simp
  | live u => exact absurd hd (hdfb u)

/-- The six external calls of an intercepted `open`, in program order. -/
theorem open_intercepted (env : Env) (s : State) (file : String) (oflag : Int)
    (mode : Option Nat) (hfd : s.fb_fd = -1) (hpath : strstr file "/dev/fb" = true) :
    ∃ s1, open_ env s file oflag mode =
        some (env.real_open s.trace "/dev/null" oflag none, s1) ∧
      s1.fb_fd = env.real_open s.trace "/dev/null" oflag none ∧
      s1.fb_addr = s.fb_addr ∧
      s1.dfb = Ref.live () ∧
      s1.primary = Ref.live (env.CreateSurface (s.trace ++
        [Event.real_open "/dev/null" oflag none, Event.DirectFBInit,
          Event.DirectFBSetOption "no-vt" none, Event.DirectFBCreate,
          Event.SetCooperativeLevel DFSCL_FULLSCREEN])) ∧
      s1.trace = s.trace ++
        [Event.real_open "/dev/null" oflag none, Event.DirectFBInit,
          Event.DirectFBSetOption "no-vt" none, Event.DirectFBCreate,
          Event.SetCooperativeLevel DFSCL_FULLSCREEN,
          Event.CreateSurface DSDESC_CAPS DSCAPS_PRIMARY] ∧
      s1.entered = s.entered ++ [EntryPoint.open, EntryPoint.open] := by
  obtain ⟨s1, h1, h2, h3, h4, h5, h6, h7⟩ :=
    open_dfb_intercepted env DfbResults.ok s file oflag mode hfd hpath rfl
  refine ⟨s1, h1, h2, h3, h4, ?_, h6, h7⟩
  rw [h5]
  simp [DfbResults.ok, setup_history]

/-- A forwarded `open`: the real `open` receives the path and the flags, and no
third argument. -/
theorem open_forwarded (env : Env) (s : State) (file : String) (oflag : Int)
    (mode : Option Nat) (h : s.fb_fd ≠ -1 ∨ strstr file "/dev/fb" = false) :
    open_ env s file oflag mode =
      some (env.real_open s.trace file oflag none,
        { s with _open := true, entered := s.entered ++ [EntryPoint.open] }.call env
          (Event.real_open file oflag none)) :=
  open_dfb_forwarded env DfbResults.ok s file oflag mode h

/-- The code's path test agrees with "the path contains the needle". -/
theorem strstr_iff (file needle : String) :
    strstr file needle = true ↔ ∃ pre post, file.toList = pre ++ needle.toList ++ post := by
  unfold strstr
  exact strstr_from_iff _ _

/-- C5: with no session (`fb_fd = -1`), `open` of a path that contains
"/dev/fb" anywhere returns, for every flags value, the descriptor the real
`open` gives for "/dev/null" with those flags, stores it in `fb_fd`, and makes
exactly these external calls, in order: the real `open` of "/dev/null",
`DirectFBInit`, `DirectFBSetOption("no-vt")`, `DirectFBCreate`,
`SetCooperativeLevel(DFSCL_FULLSCREEN)`, `CreateSurface` with the primary
capability; the framebuffer path is never passed to the real `open`. -/
theorem open_framebuffer_session (env : Env) (s : State) (file : String) (oflag : Int)
    (mode : Option Nat) (hfd : s.fb_fd = -1)
    (hpath : ∃ pre post, file.toList = pre ++ "/dev/fb".toList ++ post) :
    ∃ s1, open_ env s file oflag mode =
        some (env.real_open s.trace "/dev/null" oflag none, s1) ∧
      s1.fb_fd = env.real_open s.trace "/dev/null" oflag none ∧
      s1.trace = s.trace ++
        [Event.real_open "/dev/null" oflag none, Event.DirectFBInit,
          Event.DirectFBSetOption "no-vt" none, Event.DirectFBCreate,
          Event.SetCooperativeLevel DFSCL_FULLSCREEN,
          Event.CreateSurface DSDESC_CAPS DSCAPS_PRIMARY] ∧
      ∀ fl m, Event.real_open file fl m ∉
        [Event.real_open "/dev/null" oflag none, Event.DirectFBInit,
          Event.DirectFBSetOption "no-vt" none, Event.DirectFBCreate,
          Event.SetCooperativeLevel DFSCL_FULLSCREEN,
          Event.CreateSurface DSDESC_CAPS DSCAPS_PRIMARY] := by
  have hstr : strstr file "/dev/fb" = true := (strstr_iff _ _).mpr hpath
  obtain ⟨s1, h1, h2, -, -, -, h3, -⟩ := open_intercepted env s file oflag mode hfd hstr
  refine ⟨s1, h1, h2, h3, ?_⟩
  intro fl m hmem
  have hne : file ≠ "/dev/null" := by
    intro heq
    rw [heq] at hstr
    exact absurd hstr (by decide)
  simp [hne] at hmem

/-- C5 (witness): the first `open("/dev/fb0", O_RDWR)` of a process. -/
theorem open_framebuffer_session_witness :
    State.init.fb_fd = -1 ∧
      (∃ pre post, "/dev/fb0".toList = pre ++ "/dev/fb".toList ++ post) ∧
      ∃ s1, open_ env0 State.init "/dev/fb0" 2 none = some (3, s1) ∧ s1.fb_fd = 3 := by
  have hp : ∃ pre post, "/dev/fb0".toList = pre ++ "/dev/fb".toList ++ post :=
    ⟨[], ['0'], by decide⟩
  obtain ⟨s1, h1, h2, -, -⟩ := open_framebuffer_session env0 State.init "/dev/fb0" 2 none rfl hp
  exact ⟨rfl, hp, s1, h1, h2⟩

/-- C6 (failing input): `open("/tmp/new", O_WRONLY|O_CREAT, 0644)` with no
session is forwarded, but the real `open` is called with the path and the flags
only: the creation mode the caller supplied is not among its arguments. -/
theorem open_drops_creation_mode (env : Env) :
    ∃ s1, open_ env State.init "/tmp/new" 0x41 (some 0o644) =
        some (env.real_open [] "/tmp/new" 0x41 none, s1) ∧
      s1.trace = [Event.real_open "/tmp/new" 0x41 none] ∧
      Event.real_open "/tmp/new" 0x41 (some 0o644) ∉ s1.trace := by
  have hp : strstr "/tmp/new" "/dev/fb" = false := by decide
  refine ⟨_, open_forwarded env State.init "/tmp/new" 0x41 (some 0o644) (Or.inr hp), ?_, ?_⟩ <;>
    simp [State.call, State.init]

/-! ## Calls on other descriptors and addresses -/

/-- C7: in every state, `ioctl`, `mmap` and `close` on a descriptor other than
`fb_fd`, and `munmap` on an address other than `fb_addr`, make exactly one
external call, the real implementation with the same arguments, return its
result, and leave `fb_fd`, `fb_addr`, `dfb` and `primary` as they were. -/
theorem other_descriptor_forwarded (env : Env) (s : State) (fd : Int) (request : Nat)
    (arg : Nat) (mem : ArgMem) (addr len : Nat) (prot flags offset : Int)
    (uaddr ulen : Nat) (hfd : fd ≠ s.fb_fd) (haddr : uaddr ≠ s.fb_addr) :
    (∃ s1, ioctl env s fd request arg mem =
        some ((env.real_ioctl s.trace fd request arg mem).1,
          (env.real_ioctl s.trace fd request arg mem).2, s1) ∧
      s1.trace = s.trace ++ [Event.real_ioctl fd request arg] ∧
      s1.fb_fd = s.fb_fd ∧ s1.fb_addr = s.fb_addr ∧ s1.dfb = s.dfb ∧ s1.primary = s.primary) ∧
    (∃ s1, mmap env s addr len prot flags fd offset =
        some (env.real_mmap s.trace addr len prot flags fd offset, s1) ∧
      s1.trace = s.trace ++ [Event.real_mmap addr len prot flags fd offset] ∧
      s1.fb_fd = s.fb_fd ∧ s1.fb_addr = s.fb_addr ∧ s1.dfb = s.dfb ∧ s1.primary = s.primary) ∧
    (∃ s1, close env s fd = some (env.real_close s.trace fd, s1) ∧
      s1.trace = s.trace ++ [Event.real_close fd] ∧
      s1.fb_fd = s.fb_fd ∧ s1.fb_addr = s.fb_addr ∧ s1.dfb = s.dfb ∧ s1.primary = s.primary) ∧
    (∃ s1, munmap env s uaddr ulen = some (env.real_munmap s.trace uaddr ulen, s1) ∧
      s1.trace = s.trace ++ [Event.real_munmap uaddr ulen] ∧
      s1.fb_fd = s.fb_fd ∧ s1.fb_addr = s.fb_addr ∧ s1.dfb = s.dfb ∧ s1.primary = s.primary) := by
  refine ⟨?_, ?_, ?_, ?_⟩
  · simp [ioctl, hfd, State.call]
  · simp [mmap, hfd, State.call]
  · simp [close, hfd, State.call]
  · simp [munmap, haddr, State.call]

/-- C7 (witness): descriptor 7 and address 0x5000 during a session on
descriptor 3 whose mapping is at 0x10000. -/
theorem other_descriptor_forwarded_witness :
    ∃ s1, close env0
        { State.session 3 ⟨640, 480, DFBSurfacePixelFormat.DSPF_RGB32⟩ with fb_addr := 0x10000 }
        7 = some (0, s1) ∧
      s1.trace = [Event.real_close 7] ∧ s1.fb_fd = 3 ∧ s1.fb_addr = 0x10000 := by
  obtain ⟨-, -, ⟨s1, h1, h2, h3, h4, -⟩, -⟩ :=
    other_descriptor_forwarded env0
      { State.session 3 ⟨640, 480, DFBSurfacePixelFormat.DSPF_RGB32⟩ with fb_addr := 0x10000 }
      7 0x5401 0 (ArgMem.raw []) 0 4096 3 1 0 0x5000 4096 (by decide) (by decide)
  exact ⟨s1, h1, h2, h3, h4⟩


/-! ## `mmap`, `munmap` and `close` on the session -/

/-- C8: on the session descriptor with a live surface, `mmap` makes exactly two
external calls, `Lock(DSLF_WRITE)` and then `Unlock`, returns the address that
`Lock` reported, stores it in `fb_addr`, leaves `fb_fd` as it was and does not
call the real `mmap`. -/
theorem mmap_session (env : Env) (s : State) (surf : Surface) (addr len : Nat)
    (prot flags offset : Int) (hlive : s.primary = Ref.live surf) :
    ∃ s1, mmap env s addr len prot flags s.fb_fd offset =
        some ((env.Lock s.trace surf).1, s1) ∧
      s1.fb_addr = (env.Lock s.trace surf).1 ∧
      s1.fb_fd = s.fb_fd ∧
      s1.trace = s.trace ++ [Event.Lock DSLF_WRITE, Event.Unlock] := by
  have hrun : mmap env s addr len prot flags s.fb_fd offset =
      some ((env.Lock s.trace surf).1,
        ({ { s with _mmap := true, entered := s.entered ++ [EntryPoint.mmap] }.call env
            (Event.Lock DSLF_WRITE) with fb_addr := (env.Lock s.trace surf).1 }).call env
          Event.Unlock) := by
    simp [mmap, hlive, State.call]
  refine ⟨_, hrun, ?_, ?_, ?_⟩
  · rfl
  · rfl
  · simp [State.call]

/-- C8 (witness): a 640x480 RGB32 session; `Lock` reports 0x10000. -/
theorem mmap_session_witness :
    ∃ s1, mmap env0 (State.session 3 ⟨640, 480, DFBSurfacePixelFormat.DSPF_RGB32⟩)
        0 1228800 3 1 3 0 = some (0x10000, s1) ∧
      s1.fb_addr = 0x10000 ∧ s1.fb_fd = 3 ∧
      s1.trace = [Event.Lock DSLF_WRITE, Event.Unlock] :=
  mmap_session env0 (State.session 3 ⟨640, 480, DFBSurfacePixelFormat.DSPF_RGB32⟩)
    ⟨640, 480, DFBSurfacePixelFormat.DSPF_RGB32⟩ 0 1228800 3 1 0 rfl

/-- C9: if `mmap` on the session descriptor returned a non-null address `a`,
then `munmap(a, len)` returns 0, resets `fb_addr` to `NULL`, keeps `fb_fd` and
makes no external call; a second `munmap(a, len2)` right after it makes exactly
one external call, the real `munmap` with the same arguments, and returns its
result. -/
theorem mmap_munmap_round_trip (env : Env) (s s1 : State) (a addr len : Nat)
    (prot flags offset : Int) (ulen ulen2 : Nat)
    (hmap : mmap env s addr len prot flags s.fb_fd offset = some (a, s1)) (ha : a ≠ 0) :
    ∃ s2 s3, munmap env s1 a ulen = some (0, s2) ∧
      s2.fb_addr = 0 ∧ s2.fb_fd = s1.fb_fd ∧ s2.trace = s1.trace ∧
      munmap env s2 a ulen2 = some (env.real_munmap s2.trace a ulen2, s3) ∧
      s3.trace = s2.trace ++ [Event.real_munmap a ulen2] ∧
      s3.fb_addr = 0 ∧ s3.fb_fd = s1.fb_fd := by
  have hrec : s1.fb_addr = a := by
    simp only [mmap, if_true] at hmap
    split at hmap
    · simp only [Option.some.injEq, Prod.mk.injEq] at hmap
      rw [← hmap.2]
      exact hmap.1
    · exact absurd hmap (by simp)
  simp [munmap, hrec, ha, State.call]

/-- C9 (witness): map, unmap and unmap again on a 640x480 RGB32 session. -/
theorem mmap_munmap_round_trip_witness :
    ∃ s1 s2 s3,
      mmap env0 (State.session 3 ⟨640, 480, DFBSurfacePixelFormat.DSPF_RGB32⟩)
        0 1228800 3 1 3 0 = some (0x10000, s1) ∧
      munmap env0 s1 0x10000 1228800 = some (0, s2) ∧ s2.fb_addr = 0 ∧
      munmap env0 s2 0x10000 1228800 = some (0, s3) ∧
      s3.trace = s2.trace ++ [Event.real_munmap 0x10000 1228800] := by
  have h1 : mmap env0 (State.session 3 ⟨640, 480, DFBSurfacePixelFormat.DSPF_RGB32⟩)
      0 1228800 3 1 3 0 = some (0x10000, _) := rfl
  obtain ⟨s2, s3, h2, h3, -, -, h4, h5, -⟩ :=
    mmap_munmap_round_trip env0 (State.session 3 ⟨640, 480, DFBSurfacePixelFormat.DSPF_RGB32⟩)
      _ 0x10000 0 1228800 3 1 0 1228800 1228800 h1 (by decide)
  exact ⟨_, s2, s3, h1, h2, h3, h4, h5⟩

/-- C10: on the session descriptor, with surface and context live, `close`
makes exactly two external calls, the release of the surface and then the
release of the context, sets `fb_fd` to -1, returns 0 and does not call the
real `close`; an `open` of a path containing "/dev/fb" right after it is
intercepted again: it opens "/dev/null" through the real `open`, sets up the
display and leaves a live context and surface under the new `fb_fd`. -/
theorem close_session (env : Env) (s : State) (surf : Surface) (file : String) (oflag : Int)
    (mode : Option Nat) (hlive : s.primary = Ref.live surf) (hdfb : s.dfb = Ref.live ())
    (hpath : ∃ pre post, file.toList = pre ++ "/dev/fb".toList ++ post) :
    ∃ s1 s2, close env s s.fb_fd = some (0, s1) ∧
      s1.fb_fd = -1 ∧
      s1.trace = s.trace ++ [Event.Surface_Release, Event.DFB_Release] ∧
      open_ env s1 file oflag mode =
        some (env.real_open s1.trace "/dev/null" oflag none, s2) ∧
      s2.fb_fd = env.real_open s1.trace "/dev/null" oflag none ∧
      s2.dfb = Ref.live () ∧
      s2.primary = Ref.live (env.CreateSurface (s1.trace ++
        [Event.real_open "/dev/null" oflag none, Event.DirectFBInit,
          Event.DirectFBSetOption "no-vt" none, Event.DirectFBCreate,
          Event.SetCooperativeLevel DFSCL_FULLSCREEN])) ∧
      s2.trace = s1.trace ++
        [Event.real_open "/dev/null" oflag none, Event.DirectFBInit,
          Event.DirectFBSetOption "no-vt" none, Event.DirectFBCreate,
          Event.SetCooperativeLevel DFSCL_FULLSCREEN,
          Event.CreateSurface DSDESC_CAPS DSCAPS_PRIMARY] := by
  have hclose : ∃ s1, close env s s.fb_fd = some (0, s1) ∧ s1.fb_fd = -1 ∧
      s1.trace = s.trace ++ [Event.Surface_Release, Event.DFB_Release] := by
    simp [close, hlive, hdfb, State.call]
  obtain ⟨s1, hc, hfd, htr⟩ := hclose
  obtain ⟨s2, h1, h2, -, h3, h4, h5, -⟩ :=
    open_intercepted env s1 file oflag mode hfd ((strstr_iff _ _).mpr hpath)
  exact ⟨s1, s2, hc, hfd, htr, h1, h2, h3, h4, h5⟩

/-- C10 (witness): close a session on descriptor 3, then open "/dev/fb0". -/
theorem close_session_witness :
    ∃ s1 s2, close env0 (State.session 3 ⟨640, 480, DFBSurfacePixelFormat.DSPF_RGB32⟩) 3 =
        some (0, s1) ∧
      s1.fb_fd = -1 ∧ s1.trace = [Event.Surface_Release, Event.DFB_Release] ∧
      open_ env0 s1 "/dev/fb0" 2 none = some (3, s2) ∧ s2.fb_fd = 3 := by
  obtain ⟨s1, s2, h1, h2, h3, h4, h5, -⟩ :=
    close_session env0 (State.session 3 ⟨640, 480, DFBSurfacePixelFormat.DSPF_RGB32⟩)
      ⟨640, 480, DFBSurfacePixelFormat.DSPF_RGB32⟩ "/dev/fb0" 2 none rfl rfl
      ⟨[], ['0'], by decide⟩
  exact ⟨s1, s2, h1, h2, h3, h4, h5⟩


/-! ## Session state across calls -/

/-- What an intercepted `mmap` leaves in the statics. -/
theorem mmap_intercepted (env : Env) (s : State) (surf : Surface) (addr len : Nat)
    (prot flags offset : Int) (hlive : s.primary = Ref.live surf) :
    ∃ s1, mmap env s addr len prot flags s.fb_fd offset =
        some ((env.Lock s.trace surf).1, s1) ∧
      s1.fb_fd = s.fb_fd ∧ s1.fb_addr = (env.Lock s.trace surf).1 ∧
      s1.dfb = s.dfb ∧ s1.primary = s.primary ∧
      s1.trace = s.trace ++ [Event.Lock DSLF_WRITE, Event.Unlock] := by
  simp [mmap, hlive, State.call]

/-- What an intercepted `close` leaves in the statics: `fb_addr` is not among
the variables it writes. -/
theorem close_intercepted (env : Env) (s : State) (surf : Surface)
    (hlive : s.primary = Ref.live surf) (hdfb : s.dfb = Ref.live ()) :
    ∃ s1, close env s s.fb_fd = some (0, s1) ∧
      s1.fb_fd = -1 ∧ s1.fb_addr = s.fb_addr ∧
      s1.dfb = Ref.released ∧ s1.primary = Ref.released ∧
      s1.trace = s.trace ++ [Event.Surface_Release, Event.DFB_Release] := by
  simp [close, hlive, hdfb, State.call]

/-- C11 (failing input): `open("/dev/fb0", O_RDWR)`, `mmap` on the descriptor
it returned, then `close` of that descriptor, with no `munmap` in between:
after `close`, `fb_fd` is -1 again but `fb_addr` still holds the address of the
first session, so the state differs from the initial one, and a `munmap` of
that address made after the session returns 0 without reaching the real
`munmap`. -/
theorem close_keeps_mapped_address :
    ∃ s1 s2 s3, open_ env0 State.init "/dev/fb0" 2 none = some (3, s1) ∧
      mmap env0 s1 0 1228800 3 1 3 0 = some (0x10000, s2) ∧
      close env0 s2 3 = some (0, s3) ∧
      s3.fb_fd = -1 ∧ s3.fb_addr = 0x10000 ∧ s3.fb_addr ≠ State.init.fb_addr ∧
      ∃ s4, munmap env0 s3 0x10000 4096 = some (0, s4) ∧ s4.trace = s3.trace := by
  obtain ⟨s1, h1, hfd1, -, hdfb1, hprim1, -, -⟩ :=
    open_intercepted env0 State.init "/dev/fb0" 2 none rfl (by decide)
  obtain ⟨s2, h2, hfd2, haddr2, hdfb2, hprim2, -⟩ :=
    mmap_intercepted env0 s1 _ 0 1228800 3 1 0 hprim1
  obtain ⟨s3, h3, hfd3, haddr3, -, -, -⟩ :=
    close_intercepted env0 s2 _ (hprim2.trans hprim1) (hdfb2.trans hdfb1)
  have e1 : s1.fb_fd = 3 := hfd1
  have e2 : s2.fb_fd = 3 := hfd2.trans e1
  rw [e1] at h2
  rw [e2] at h3
  have e3 : s3.fb_addr = 0x10000 := haddr3.trans haddr2
  refine ⟨s1, s2, s3, h1, h2, h3, hfd3, e3, by rw [e3]; decide, ?_⟩
  simp [munmap, e3]

/-- C14: on the session descriptor, a request other than the two screen-info
queries returns 0, leaves the memory behind `arg` as it was, makes no external
call (no surface query, no real `ioctl`) and leaves `fb_fd`, `fb_addr`, `dfb`
and `primary` unchanged. -/
theorem ioctl_other_request (env : Env) (s : State) (request : Nat) (arg : Nat)
    (mem : ArgMem) (hv : request ≠ FBIOGET_VSCREENINFO) (hf : request ≠ FBIOGET_FSCREENINFO) :
    ∃ s1, ioctl env s s.fb_fd request arg mem = some (0, mem, s1) ∧
      s1.trace = s.trace ∧ s1.fb_fd = s.fb_fd ∧ s1.fb_addr = s.fb_addr ∧
      s1.dfb = s.dfb ∧ s1.primary = s.primary ∧ s1.errno = s.errno := by
  refine ⟨{ s with _ioctl := true, entered := s.entered ++ [EntryPoint.ioctl] }, ?_, rfl, rfl,
    rfl, rfl, rfl, rfl⟩
  simp [ioctl, hv, hf]

/-- C14 (witness): `FBIOPUT_VSCREENINFO` (0x4601) on a session. -/
theorem ioctl_other_request_witness :
    ∃ s1, ioctl env0 (State.session 3 ⟨640, 480, DFBSurfacePixelFormat.DSPF_RGB32⟩) 3 0x4601 0
        (ArgMem.raw [7, 7]) = some (0, ArgMem.raw [7, 7], s1) ∧ s1.trace = [] := by
  obtain ⟨s1, h1, h2, -⟩ :=
    ioctl_other_request env0 (State.session 3 ⟨640, 480, DFBSurfacePixelFormat.DSPF_RGB32⟩)
      0x4601 0 (ArgMem.raw [7, 7]) (by decide) (by decide)
  exact ⟨s1, h1, h2⟩

/-- C16 (failing input): one `open("/dev/fb0", O_RDWR)` with no session enters
the interposed `open` twice, because the descriptor of "/dev/null" is obtained
by calling `open` by name; the nested call forwards to the real `open` and the
outer call returns its descriptor. -/
theorem open_reenters_shim (env : Env) :
    ∃ s1, open_ env State.init "/dev/fb0" 2 none =
        some (env.real_open [] "/dev/null" 2 none, s1) ∧
      s1.entered = [EntryPoint.open, EntryPoint.open] ∧
      s1.entered ≠ [EntryPoint.open] := by
  obtain ⟨s1, h1, -, -, -, -, -, h2⟩ :=
    open_intercepted env State.init "/dev/fb0" 2 none rfl (by decide)
  have e : s1.entered = [EntryPoint.open, EntryPoint.open] := h2
  exact ⟨s1, h1, e, by rw [e]; decide⟩

/-- C17 (counterexample): a session whose surface has an unsupported format
and reports width -1: the failing `FBIOGET_VSCREENINFO` returns -1 and leaves
4294967295 in `xres` and `xres_virtual`, which is not the width. -/
theorem ioctl_failure_negative_width :
    ∃ v s1, ioctl env0 (State.session 3 ⟨-1, 480, DFBSurfacePixelFormat.other 0⟩) 3
        FBIOGET_VSCREENINFO 0 (ArgMem.raw []) = some (-1, ArgMem.var v, s1) ∧
      v.xres = 4294967295 ∧ v.xres_virtual = 4294967295 ∧ (v.xres : Int) ≠ -1 := by
  refine ⟨_, _, rfl, rfl, rfl, by decide⟩

/-- C17 (amended): on the session descriptor with a live surface of width
`w >= 0` and height `h' >= 0` (C `int`s) whose format is none of RGB16, RGB24,
RGB32, both queries return -1 after overwriting the caller's structure,
whatever it held: `FBIOGET_VSCREENINFO` leaves the all-zero structure except
`xres = xres_virtual = w` and `yres = yres_virtual = h'`,
`FBIOGET_FSCREENINFO` leaves the all-zero structure except
`visual = FB_VISUAL_TRUECOLOR`. -/
theorem ioctl_failure_overwrites_arg (env : Env) (s : State) (surf : Surface) (arg : Nat)
    (old : ArgMem) (w h : Nat) (hlive : s.primary = Ref.live surf)
    (hw : surf.width = (w : Int)) (hh : surf.height = (h : Int))
    (hwr : w < 2 ^ 31) (hhr : h < 2 ^ 31)
    (h16 : surf.fmt ≠ DFBSurfacePixelFormat.DSPF_RGB16)
    (h24 : surf.fmt ≠ DFBSurfacePixelFormat.DSPF_RGB24)
    (h32 : surf.fmt ≠ DFBSurfacePixelFormat.DSPF_RGB32) :
    (∃ s1, ioctl env s s.fb_fd FBIOGET_VSCREENINFO arg old =
        some (-1, ArgMem.var
          { fb_var_zero with xres := w, xres_virtual := w, yres := h, yres_virtual := h },
          s1)) ∧
    (∃ s1, ioctl env s s.fb_fd FBIOGET_FSCREENINFO arg old =
        some (-1, ArgMem.fix { fb_fix_zero with visual := FB_VISUAL_TRUECOLOR }, s1)) := by
  have ew : u32 surf.width = w := by rw [hw]; exact u32_natCast _ (by omega)
  have eh : u32 surf.height = h := by rw [hh]; exact u32_natCast _ (by omega)
  have hfmt : ∃ c, surf.fmt = DFBSurfacePixelFormat.other c := by
    cases hc : surf.fmt with
    | DSPF_RGB16 => exact absurd hc h16
    | DSPF_RGB24 => exact absurd hc h24
    | DSPF_RGB32 => exact absurd hc h32
    | other c => exact ⟨c, rfl⟩
  obtain ⟨c, hc⟩ := hfmt
  refine ⟨?_, ?_⟩
  · simp [ioctl, hlive, hc, fill_var, FBIOGET_VSCREENINFO, ew, eh]
  · simp [ioctl, hlive, hc, fill_fix, FBIOGET_VSCREENINFO, FBIOGET_FSCREENINFO]

/-- C17 (witness): a 640x480 session in another format, and old contents in
the caller's memory. -/
theorem ioctl_failure_overwrites_arg_witness :
    (∃ s1, ioctl env0 (State.session 3 ⟨640, 480, DFBSurfacePixelFormat.other 0⟩) 3
        FBIOGET_VSCREENINFO 0 (ArgMem.raw [9, 9, 9]) =
      some (-1, ArgMem.var
        { fb_var_zero with xres := 640, xres_virtual := 640, yres := 480, yres_virtual := 480 },
        s1)) ∧
    (∃ s1, ioctl env0 (State.session 3 ⟨640, 480, DFBSurfacePixelFormat.other 0⟩) 3
        FBIOGET_FSCREENINFO 0 (ArgMem.raw [9, 9, 9]) =
      some (-1, ArgMem.fix { fb_fix_zero with visual := 2 }, s1)) :=
  ioctl_failure_overwrites_arg env0 (State.session 3 ⟨640, 480, DFBSurfacePixelFormat.other 0⟩)
    ⟨640, 480, DFBSurfacePixelFormat.other 0⟩ 0 (ArgMem.raw [9, 9, 9]) 640 480 rfl rfl rfl
    (by decide) (by decide) (by decide) (by decide) (by decide)

/-- C18: on the session descriptor with a live surface, two `mmap` calls from
the same state with any two tuples of `addr`, `len`, `prot`, `flags` and
`offset` return the same address, the one `Lock` reports, and leave the same
state. -/
theorem mmap_ignores_arguments (env : Env) (s : State) (surf : Surface)
    (addr1 len1 : Nat) (prot1 flags1 offset1 : Int)
    (addr2 len2 : Nat) (prot2 flags2 offset2 : Int) (hlive : s.primary = Ref.live surf) :
    ∃ s1, mmap env s addr1 len1 prot1 flags1 s.fb_fd offset1 =
        some ((env.Lock s.trace surf).1, s1) ∧
      mmap env s addr2 len2 prot2 flags2 s.fb_fd offset2 =
        some ((env.Lock s.trace surf).1, s1) := by
  refine ⟨({ { s with _mmap := true, entered := s.entered ++ [EntryPoint.mmap] }.call env
      (Event.Lock DSLF_WRITE) with fb_addr := (env.Lock s.trace surf).1 }).call env
    Event.Unlock, ?_, ?_⟩
  · simp [mmap, hlive, State.call]
  · simp [mmap, hlive, State.call]

/-- C18 (witness): a whole-surface mapping at offset 0 and a one-byte mapping
at offset 4096 with a placement hint give the same address and state. -/
theorem mmap_ignores_arguments_witness :
    ∃ s1, mmap env0 (State.session 3 ⟨640, 480, DFBSurfacePixelFormat.DSPF_RGB32⟩)
        0 1228800 3 1 3 0 = some (0x10000, s1) ∧
      mmap env0 (State.session 3 ⟨640, 480, DFBSurfacePixelFormat.DSPF_RGB32⟩)
        0x7000 1 1 2 3 4096 = some (0x10000, s1) :=
  mmap_ignores_arguments env0 (State.session 3 ⟨640, 480, DFBSurfacePixelFormat.DSPF_RGB32⟩)
    ⟨640, 480, DFBSurfacePixelFormat.DSPF_RGB32⟩ 0 1228800 3 1 0 0x7000 1 1 2 4096 rfl


/-! ## Consistency of the two screen-info answers -/

/-- The `int` products of the second query, when they do not overflow. -/
theorem fix_products (b w h : Nat) (width height : Int) (hw : width = (w : Int))
    (hh : height = (h : Int)) (h1 : b * w < 2 ^ 31) (h2 : b * w * h < 2 ^ 31) :
    u32 (i32 ((b : Int) * width)) = b * w ∧
      u32 (i32 (i32 ((b : Int) * width) * height)) = b * w * h := by
  have c1 : (b : Int) * (w : Int) = ((b * w : Nat) : Int) := by push_cast; rfl
  have c2 : ((b * w : Nat) : Int) * (h : Int) = ((b * w * h : Nat) : Int) := by
    push_cast; rfl
  have e1 : i32 ((b : Int) * width) = ((b * w : Nat) : Int) := by
    rw [hw, c1]
    exact i32_of_range _ (by omega) (by omega)
  have e2 : i32 (((b * w : Nat) : Int) * height) = ((b * w * h : Nat) : Int) := by
    rw [hh, c2]
    exact i32_of_range _ (by omega) (by omega)
  rw [e1, e2]
  exact ⟨u32_natCast _ (by omega), u32_natCast _ (by omega)⟩

/-- A screen-info query that reaches a supported case of the first switch. -/
theorem ioctl_var_supported (env : Env) (s : State) (surf : Surface) (fd : Int) (arg : Nat)
    (old : ArgMem) (hfd : fd = s.fb_fd) (hlive : s.primary = Ref.live surf)
    (hsup : (fill_var surf.width surf.height surf.fmt).2 = true) :
    ioctl env s fd FBIOGET_VSCREENINFO arg old =
      some (0, ArgMem.var (fill_var surf.width surf.height surf.fmt).1,
        ({ s with _ioctl := true, entered := s.entered ++ [EntryPoint.ioctl] }.call env
          Event.GetSize).call env Event.GetPixelFormat) := by
  simp [ioctl, hfd, hlive, hsup, FBIOGET_VSCREENINFO]

/-- A screen-info query that reaches a supported case of the second switch. -/
theorem ioctl_fix_supported (env : Env) (s : State) (surf : Surface) (fd : Int) (arg : Nat)
    (old : ArgMem) (hfd : fd = s.fb_fd) (hlive : s.primary = Ref.live surf)
    (hsup : (fill_fix surf.width surf.height surf.fmt).2 = true) :
    ioctl env s fd FBIOGET_FSCREENINFO arg old =
      some (0, ArgMem.fix (fill_fix surf.width surf.height surf.fmt).1,
        ({ s with _ioctl := true, entered := s.entered ++ [EntryPoint.ioctl] }.call env
          Event.GetSize).call env Event.GetPixelFormat) := by
  simp [ioctl, hfd, hlive, hsup, FBIOGET_VSCREENINFO, FBIOGET_FSCREENINFO]

/-- C15 (counterexample): an RGB24 surface of width 1431655766 and height 0
meets `w >= 0`, `h' >= 0` and `4*w*h' < 2^31`; both queries return 0, and
`line_length * 8 = 16` while `xres * bits_per_pixel = 34359738384`. -/
theorem screeninfo_row_mismatch_on_wrap :
    (4 : Int) * 1431655766 * 0 < 2 ^ 31 ∧
      ∃ v f s1 s2,
        ioctl env0 (State.session 3 ⟨1431655766, 0, DFBSurfacePixelFormat.DSPF_RGB24⟩) 3
            FBIOGET_VSCREENINFO 0 (ArgMem.raw []) = some (0, ArgMem.var v, s1) ∧
          ioctl env0 s1 3 FBIOGET_FSCREENINFO 0 (ArgMem.raw []) = some (0, ArgMem.fix f, s2) ∧
          v.xres = 1431655766 ∧ v.bits_per_pixel = 24 ∧ f.line_length = 2 ∧
          f.line_length * 8 ≠ v.xres * v.bits_per_pixel := by
  refine ⟨by decide, _, _, _, _, rfl, rfl, rfl, rfl, rfl, by decide⟩

/-- C15 (amended): on the session descriptor with a live surface of supported
format, width `w >= 0` and height `h' >= 0` (C `int`s) with `4*w < 2^31` and
`4*w*h' < 2^31`, `FBIOGET_VSCREENINFO` followed immediately by
`FBIOGET_FSCREENINFO` both return 0 and report `xres = xres_virtual = w`,
`yres = yres_virtual = h'`, `line_length * 8 = xres * bits_per_pixel` and
`smem_len = line_length * yres`. -/
theorem screeninfo_cross_consistent (env : Env) (s : State) (surf : Surface)
    (arg1 arg2 : Nat) (old1 old2 : ArgMem) (w h : Nat)
    (hlive : s.primary = Ref.live surf)
    (hw : surf.width = (w : Int)) (hh : surf.height = (h : Int)) (hhr : h < 2 ^ 31)
    (hfmt : surf.fmt = DFBSurfacePixelFormat.DSPF_RGB16 ∨
      surf.fmt = DFBSurfacePixelFormat.DSPF_RGB24 ∨
      surf.fmt = DFBSurfacePixelFormat.DSPF_RGB32)
    (hrow : 4 * w < 2 ^ 31) (hsz : 4 * w * h < 2 ^ 31) :
    ∃ v f s1 s2,
      ioctl env s s.fb_fd FBIOGET_VSCREENINFO arg1 old1 = some (0, ArgMem.var v, s1) ∧
      ioctl env s1 s.fb_fd FBIOGET_FSCREENINFO arg2 old2 = some (0, ArgMem.fix f, s2) ∧
      v.xres = w ∧ v.xres_virtual = w ∧ v.yres = h ∧ v.yres_virtual = h ∧
      f.line_length * 8 = v.xres * v.bits_per_pixel ∧
      f.smem_len = f.line_length * v.yres ∧
      (surf.fmt = DFBSurfacePixelFormat.DSPF_RGB16 → v.bits_per_pixel = 16) ∧
      (surf.fmt = DFBSurfacePixelFormat.DSPF_RGB24 → v.bits_per_pixel = 24) ∧
      (surf.fmt = DFBSurfacePixelFormat.DSPF_RGB32 → v.bits_per_pixel = 32) := by
  have ew : u32 surf.width = w := by rw [hw]; exact u32_natCast _ (by omega)
  have eh : u32 surf.height = h := by rw [hh]; exact u32_natCast _ (by omega)
  have hmul : ∀ b : Nat, b ≤ 4 → b * w < 2 ^ 31 ∧ b * w * h < 2 ^ 31 := by
    intro b hb
    have q1 : b * w ≤ 4 * w := Nat.mul_le_mul_right w hb
    have q2 : b * w * h ≤ 4 * w * h := Nat.mul_le_mul_right h q1
    omega
  have hv : (fill_var surf.width surf.height surf.fmt).2 = true := by
    rcases hfmt with hf | hf | hf <;> simp [hf, fill_var]
  have hx : (fill_fix surf.width surf.height surf.fmt).2 = true := by
    rcases hfmt with hf | hf | hf <;> simp [hf, fill_fix]
  have r1 := ioctl_var_supported env s surf s.fb_fd arg1 old1 rfl hlive hv
  have r2 := ioctl_fix_supported env
    (({ s with _ioctl := true, entered := s.entered ++ [EntryPoint.ioctl] }.call env
      Event.GetSize).call env Event.GetPixelFormat) surf s.fb_fd arg2 old2 rfl hlive hx
  refine ⟨_, _, _, _, r1, r2, ?_⟩
  rcases hfmt with hf | hf | hf
  · obtain ⟨k1, k2⟩ := fix_products 2 w h _ _ hw hh (hmul 2 (by omega)).1 (hmul 2 (by omega)).2
    simp only [Nat.cast_ofNat] at k1 k2
    simp [hf, fill_var, fill_fix, ew, eh, k1, k2]
    ring
  · obtain ⟨k1, k2⟩ := fix_products 3 w h _ _ hw hh (hmul 3 (by omega)).1 (hmul 3 (by omega)).2
    simp only [Nat.cast_ofNat] at k1 k2
    simp [hf, fill_var, fill_fix, ew, eh, k1, k2]
    ring
  · obtain ⟨k1, k2⟩ := fix_products 4 w h _ _ hw hh (hmul 4 (by omega)).1 (hmul 4 (by omega)).2
    simp only [Nat.cast_ofNat] at k1 k2
    simp [hf, fill_var, fill_fix, ew, eh, k1, k2]
    ring

/-- C15 (witness): the 640x480 32-bit surface reports `xres = 640`,
`yres = yres_virtual = 480`, `bits_per_pixel = 32`, `smem_len = 1228800` and
`line_length = 2560`. -/
theorem screeninfo_cross_consistent_witness :
    ∃ v f s1 s2,
      ioctl env0 (State.session 3 ⟨640, 480, DFBSurfacePixelFormat.DSPF_RGB32⟩) 3
          FBIOGET_VSCREENINFO 0 (ArgMem.raw []) = some (0, ArgMem.var v, s1) ∧
        ioctl env0 s1 3 FBIOGET_FSCREENINFO 0 (ArgMem.raw []) = some (0, ArgMem.fix f, s2) ∧
        v.xres = 640 ∧ v.yres = 480 ∧ v.yres_virtual = 480 ∧ v.bits_per_pixel = 32 ∧
        f.smem_len = 1228800 ∧ f.line_length = 2560 := by
  obtain ⟨v, f, s1, s2, h1, h2, hx, -, hy, hyv, hrow, hsz, -, -, hbpp⟩ :=
    screeninfo_cross_consistent env0
      (State.session 3 ⟨640, 480, DFBSurfacePixelFormat.DSPF_RGB32⟩)
      ⟨640, 480, DFBSurfacePixelFormat.DSPF_RGB32⟩ 0 0 (ArgMem.raw []) (ArgMem.raw []) 640 480
      rfl rfl rfl (by decide) (Or.inr (Or.inr rfl)) (by decide) (by decide)
  have hb : v.bits_per_pixel = 32 := hbpp rfl
  rw [hx, hb] at hrow
  have hl : f.line_length = 2560 := by omega
  rw [hl, hy] at hsz
  exact ⟨v, f, s1, s2, h1, h2, hx, hy, hyv, hb, hsz, hl⟩


/-- C19: for each of RGB16, RGB24 and RGB32, the structure written by
`FBIOGET_VSCREENINFO` has `bits_per_pixel` 16, 24 or 32; the four channel
lengths sum to it; each channel range `[offset, offset + length)` ends within
the pixel; no bit belongs to two channels; and every bit of the pixel belongs
to a channel. -/
theorem vscreeninfo_layout_well_formed (env : Env) (s : State) (surf : Surface) (arg : Nat)
    (old : ArgMem) (hlive : s.primary = Ref.live surf)
    (hfmt : surf.fmt = DFBSurfacePixelFormat.DSPF_RGB16 ∨
      surf.fmt = DFBSurfacePixelFormat.DSPF_RGB24 ∨
      surf.fmt = DFBSurfacePixelFormat.DSPF_RGB32) :
    ∃ v s1, ioctl env s s.fb_fd FBIOGET_VSCREENINFO arg old = some (0, ArgMem.var v, s1) ∧
      (v.bits_per_pixel = 16 ∨ v.bits_per_pixel = 24 ∨ v.bits_per_pixel = 32) ∧
      v.red.length + v.green.length + v.blue.length + v.transp.length = v.bits_per_pixel ∧
      v.red.offset + v.red.length ≤ v.bits_per_pixel ∧
      v.green.offset + v.green.length ≤ v.bits_per_pixel ∧
      v.blue.offset + v.blue.length ≤ v.bits_per_pixel ∧
      v.transp.offset + v.transp.length ≤ v.bits_per_pixel ∧
      (∀ bit, ¬(v.red.covers bit ∧ v.green.covers bit)) ∧
      (∀ bit, ¬(v.red.covers bit ∧ v.blue.covers bit)) ∧
      (∀ bit, ¬(v.red.covers bit ∧ v.transp.covers bit)) ∧
      (∀ bit, ¬(v.green.covers bit ∧ v.blue.covers bit)) ∧
      (∀ bit, ¬(v.green.covers bit ∧ v.transp.covers bit)) ∧
      (∀ bit, ¬(v.blue.covers bit ∧ v.transp.covers bit)) ∧
      (∀ bit, bit < v.bits_per_pixel →
        v.red.covers bit ∨ v.green.covers bit ∨ v.blue.covers bit ∨ v.transp.covers bit) := by
  have hv : (fill_var surf.width surf.height surf.fmt).2 = true := by
    rcases hfmt with hf | hf | hf <;> simp [hf, fill_var]
  refine ⟨_, _, ioctl_var_supported env s surf s.fb_fd arg old rfl hlive hv, ?_⟩
  rcases hfmt with hf | hf | hf <;>
    simp only [hf, fill_var, fb_var_zero, fb_bitfield_zero, fb_bitfield.covers] <;>
    refine ⟨by decide, by decide, by decide, by decide, by decide, by decide,
      ?_, ?_, ?_, ?_, ?_, ?_, ?_⟩ <;>
    intro bit <;> omega

/-- C19 (witness): the RGB16 layout covers bit 11 with red only. -/
theorem vscreeninfo_layout_well_formed_witness :
    ∃ v s1, ioctl env0 (State.session 3 ⟨640, 480, DFBSurfacePixelFormat.DSPF_RGB16⟩) 3
        FBIOGET_VSCREENINFO 0 (ArgMem.raw []) = some (0, ArgMem.var v, s1) ∧
      v.red.length + v.green.length + v.blue.length + v.transp.length = v.bits_per_pixel ∧
      ¬(v.red.covers 11 ∧ v.green.covers 11) := by
  obtain ⟨v, s1, h1, -, hsum, -, -, -, -, hrg, -⟩ :=
    vscreeninfo_layout_well_formed env0
      (State.session 3 ⟨640, 480, DFBSurfacePixelFormat.DSPF_RGB16⟩)
      ⟨640, 480, DFBSurfacePixelFormat.DSPF_RGB16⟩ 0 (ArgMem.raw []) rfl (Or.inl rfl)
  exact ⟨v, s1, h1, hsum, hrg 11⟩

/-! ## Session setup and the number of live display objects -/

/-- Effects add up over a concatenated sequence of calls. -/
theorem count_from_append (delta : List Event → Event → Int) (a b : List Event) :
    ∀ hist, count_from delta hist (a ++ b) =
      count_from delta hist a + count_from delta (hist ++ a) b := by
  induction a with
  | nil => intro hist; simp [count_from]
  | cons e rest ih =>
    intro hist
    have e1 : count_from delta hist (e :: rest ++ b) =
        delta hist e + count_from delta (hist ++ [e]) (rest ++ b) := rfl
    have e2 : count_from delta hist (e :: rest) =
        delta hist e + count_from delta (hist ++ [e]) rest := rfl
    have e3 : hist ++ e :: rest = hist ++ [e] ++ rest := by simp
    rw [e1, e2, ih (hist ++ [e]), e3]
    omega

/-- Live contexts after further calls. -/
theorem live_contexts_append (res : DfbResults) (tr l : List Event) :
    live_contexts res (tr ++ l) =
      live_contexts res tr + count_from (Event.ctx_delta res) tr l := by
  simp [live_contexts, count_from_append]

/-- Live surfaces after further calls. -/
theorem live_surfaces_append (res : DfbResults) (tr l : List Event) :
    live_surfaces res (tr ++ l) =
      live_surfaces res tr + count_from (Event.surf_delta res) tr l := by
  simp [live_surfaces, count_from_append]

/-- The six calls of an intercepted `open` make one context exactly when
`DirectFBCreate` succeeds. -/
theorem setup_contexts (res : DfbResults) (tr : List Event) (oflag : Int) :
    count_from (Event.ctx_delta res) tr
        [Event.real_open "/dev/null" oflag none, Event.DirectFBInit,
          Event.DirectFBSetOption "no-vt" none, Event.DirectFBCreate,
          Event.SetCooperativeLevel DFSCL_FULLSCREEN,
          Event.CreateSurface DSDESC_CAPS DSCAPS_PRIMARY] =
      if res.create_ok (tr ++
        [Event.real_open "/dev/null" oflag none, Event.DirectFBInit,
          Event.DirectFBSetOption "no-vt" none]) = true then 1 else 0 := by
  simp [count_from, Event.ctx_delta]

/-- The six calls of an intercepted `open` make one surface exactly when
`CreateSurface` succeeds. -/
theorem setup_surfaces (res : DfbResults) (s : State) (oflag : Int) :
    count_from (Event.surf_delta res) s.trace
        [Event.real_open "/dev/null" oflag none, Event.DirectFBInit,
          Event.DirectFBSetOption "no-vt" none, Event.DirectFBCreate,
          Event.SetCooperativeLevel DFSCL_FULLSCREEN,
          Event.CreateSurface DSDESC_CAPS DSCAPS_PRIMARY] =
      if res.surface_ok (setup_history s oflag) = true then 1 else 0 := by
  simp [count_from, Event.surf_delta, setup_history]

/-- C13 (counterexample): three runs of `open("/dev/fb0", O_RDWR)` from the
initial state.  When the real `open` of "/dev/null" fails, the call returns -1
with `fb_fd = -1` and has created a context and a surface.  When
`CreateSurface` fails, the call returns the valid descriptor 3 with a context
and no surface.  When `DirectFBCreate` fails, the call through the null `dfb`
leaves no result at all. -/
theorem open_sets_up_display_without_descriptor :
    (∃ s1, open_dfb env_fail DfbResults.ok State.init "/dev/fb0" 2 none = some (-1, s1) ∧
      s1.fb_fd = -1 ∧ s1.dfb = Ref.live () ∧ (∃ surf, s1.primary = Ref.live surf) ∧
      live_contexts DfbResults.ok s1.trace = 1 ∧ live_surfaces DfbResults.ok s1.trace = 1) ∧
    (∃ s1, open_dfb env0 DfbResults.no_surface State.init "/dev/fb0" 2 none = some (3, s1) ∧
      s1.fb_fd = 3 ∧ s1.dfb = Ref.live () ∧ s1.primary = Ref.null ∧
      live_contexts DfbResults.no_surface s1.trace = 1 ∧
      live_surfaces DfbResults.no_surface s1.trace = 0) ∧
    open_dfb env0 DfbResults.no_context State.init "/dev/fb0" 2 none = none := by
  refine ⟨?_, ?_, ?_⟩
  · obtain ⟨s1, h1, h2, -, h3, h4, h5, -⟩ :=
      open_dfb_intercepted env_fail DfbResults.ok State.init "/dev/fb0" 2 none rfl
        (by decide) rfl
    refine ⟨s1, h1, h2, h3, ⟨_, h4⟩, ?_, ?_⟩
    · rw [h5]; rfl
    · rw [h5]; rfl
  · obtain ⟨s1, h1, h2, -, h3, h4, h5, -⟩ :=
      open_dfb_intercepted env0 DfbResults.no_surface State.init "/dev/fb0" 2 none rfl
        (by decide) rfl
    refine ⟨s1, h1, h2, h3, h4, ?_, ?_⟩
    · rw [h5]; rfl
    · rw [h5]; rfl
  · exact open_dfb_create_fails env0 DfbResults.no_context State.init "/dev/fb0" 2 none rfl
      (by decide) rfl (by intro u h; exact absurd h (by simp [State.init]))

/-- C13 (amended): with no session, when the real `open` of "/dev/null" gives a
valid (non-negative) descriptor and `DirectFBCreate` and `CreateSurface` both
succeed, `open` of a path containing "/dev/fb" returns that descriptor with
`fb_fd` set to it, and there is one more display context and one more surface,
to which `dfb` and `primary` point. -/
theorem open_establishes_session (env : Env) (res : DfbResults) (s : State) (file : String)
    (oflag : Int) (mode : Option Nat) (hfd : s.fb_fd = -1)
    (hpath : ∃ pre post, file.toList = pre ++ "/dev/fb".toList ++ post)
    (hok : 0 ≤ env.real_open s.trace "/dev/null" oflag none)
    (hcreate : res.create_ok (s.trace ++
      [Event.real_open "/dev/null" oflag none, Event.DirectFBInit,
        Event.DirectFBSetOption "no-vt" none]) = true)
    (hsurf : res.surface_ok (setup_history s oflag) = true) :
    ∃ s1, open_dfb env res s file oflag mode =
        some (env.real_open s.trace "/dev/null" oflag none, s1) ∧
      s1.fb_fd = env.real_open s.trace "/dev/null" oflag none ∧ s1.fb_fd ≠ -1 ∧
      s1.dfb = Ref.live () ∧
      s1.primary = Ref.live (env.CreateSurface (setup_history s oflag)) ∧
      live_contexts res s1.trace = live_contexts res s.trace + 1 ∧
      live_surfaces res s1.trace = live_surfaces res s.trace + 1 := by
  obtain ⟨s1, h1, h2, -, h3, h4, h5, -⟩ :=
    open_dfb_intercepted env res s file oflag mode hfd ((strstr_iff _ _).mpr hpath) hcreate
  refine ⟨s1, h1, h2, ?_, h3, ?_, ?_, ?_⟩
  · rw [h2]; omega
  · rw [h4, if_pos hsurf]
  · rw [h5, live_contexts_append, setup_contexts, if_pos hcreate]
  · rw [h5, live_surfaces_append, setup_surfaces, if_pos hsurf]

/-- C13 (witness): the first `open("/dev/fb0", O_RDWR)` where "/dev/null" opens
as descriptor 3 and both DirectFB calls succeed. -/
theorem open_establishes_session_witness :
    ∃ s1, open_dfb env0 DfbResults.ok State.init "/dev/fb0" 2 none = some (3, s1) ∧
      s1.fb_fd = 3 ∧ s1.dfb = Ref.live () ∧
      s1.primary = Ref.live ⟨640, 480, DFBSurfacePixelFormat.DSPF_RGB32⟩ ∧
      live_contexts DfbResults.ok s1.trace = 1 ∧ live_surfaces DfbResults.ok s1.trace = 1 := by
  obtain ⟨s1, h1, h2, -, h3, h4, h5, h6⟩ :=
    open_establishes_session env0 DfbResults.ok State.init "/dev/fb0" 2 none rfl
      ⟨[], ['0'], by decide⟩ (by decide) rfl rfl
  exact ⟨s1, h1, h2, h3, h4, by rw [h5]; rfl, by rw [h6]; rfl⟩


/-- The session invariant only reads `fb_fd`, `dfb`, `primary` and the two
counts of the history. -/
theorem SessionInv_of_same (res : DfbResults) (s s1 : State) (hinv : SessionInv res s)
    (hfd : s1.fb_fd = s.fb_fd) (hdfb : s1.dfb = s.dfb) (hprim : s1.primary = s.primary)
    (hc : live_contexts res s1.trace = live_contexts res s.trace)
    (hs : live_surfaces res s1.trace = live_surfaces res s.trace) : SessionInv res s1 := by
  unfold SessionInv at *
  rw [hfd, hdfb, hprim, hc, hs]
  exact hinv

/-- The state of a freshly loaded shim satisfies the session invariant. -/
theorem SessionInv_init (res : DfbResults) : SessionInv res State.init := by
  unfold SessionInv
  refine ⟨fun _ => ⟨?_, ?_, rfl, rfl⟩, fun h => absurd rfl h⟩
  · intro surf h
    exact absurd h (by simp [State.init])
  · intro u h
    exact absurd h (by simp [State.init])

/-- A call keeps the session invariant when, if it is an intercepted `open`,
its real `open` of "/dev/null" does not return -1 and its `CreateSurface`
succeeds. -/
theorem step_preserves_SessionInv (env : Env) (res : DfbResults) (s s1 : State) (c : Call)
    (hinv : SessionInv res s) (hok : SetupSucceeds env res s c)
    (hstep : step env res s c = some s1) : SessionInv res s1 := by
  cases c with
  | «open» file oflag mode =>
    simp only [step, Option.map_eq_some'] at hstep
    obtain ⟨⟨r, s2⟩, hrun, rfl⟩ := hstep
    by_cases hcond : s.fb_fd = -1 ∧ strstr file "/dev/fb" = true
    · obtain ⟨hdesc, hsurf⟩ := hok hcond.1 hcond.2
      obtain ⟨hnoprim, hnodfb, hc0, hs0⟩ := hinv.1 hcond.1
      cases hcreate : res.create_ok (s.trace ++
          [Event.real_open "/dev/null" oflag none, Event.DirectFBInit,
            Event.DirectFBSetOption "no-vt" none]) with
      | false =>
        rw [open_dfb_create_fails env res s file oflag mode hcond.1 hcond.2 hcreate hnodfb]
          at hrun
        exact absurd hrun (by simp)
      | true =>
        obtain ⟨s3, h1, h2, -, h3, h4, h5, -⟩ :=
          open_dfb_intercepted env res s file oflag mode hcond.1 hcond.2 hcreate
        rw [h1] at hrun
        simp only [Option.some.injEq, Prod.mk.injEq] at hrun
        obtain ⟨-, rfl⟩ := hrun
        have hne : s3.fb_fd ≠ -1 := by rw [h2]; exact hdesc
        rw [if_pos hsurf] at h4
        refine ⟨fun h => absurd h hne, fun _ => ⟨⟨_, h4⟩, h3, ?_, ?_⟩⟩
        · rw [h5, live_contexts_append, setup_contexts, if_pos hcreate, hc0]; rfl
        · rw [h5, live_surfaces_append, setup_surfaces, if_pos hsurf, hs0]; rfl
    · have hfw : s.fb_fd ≠ -1 ∨ strstr file "/dev/fb" = false := by
        by_cases hfd : s.fb_fd = -1
        · right
          cases hstr : strstr file "/dev/fb" with
          | true => exact absurd ⟨hfd, hstr⟩ hcond
          | false => rfl
        · left; exact hfd
      rw [open_dfb_forwarded env res s file oflag mode hfw] at hrun
      simp only [Option.some.injEq, Prod.mk.injEq] at hrun
      obtain ⟨-, rfl⟩ := hrun
      refine SessionInv_of_same res s _ hinv rfl rfl rfl ?_ ?_ <;>
        simp [State.call, live_contexts_append, live_surfaces_append, count_from,
          Event.ctx_delta, Event.surf_delta]
  | ioctl fd request arg mem =>
    simp only [step, Option.map_eq_some'] at hstep
    obtain ⟨⟨r, m, s2⟩, hrun, rfl⟩ := hstep
    unfold ioctl at hrun
    simp only at hrun
    split at hrun
    · split at hrun
      · split at hrun
        · split at hrun <;> split at hrun <;>
            simp only [Option.some.injEq, Prod.mk.injEq] at hrun <;>
            obtain ⟨-, -, rfl⟩ := hrun <;>
            refine SessionInv_of_same res s _ hinv rfl rfl rfl ?_ ?_ <;>
            simp [State.call, live_contexts_append, live_surfaces_append, count_from,
              Event.ctx_delta, Event.surf_delta]
        · exact absurd hrun (by simp)
      · simp only [Option.some.injEq, Prod.mk.injEq] at hrun
        obtain ⟨-, -, rfl⟩ := hrun
        exact SessionInv_of_same res s _ hinv rfl rfl rfl rfl rfl
    · simp only [Option.some.injEq, Prod.mk.injEq] at hrun
      obtain ⟨-, -, rfl⟩ := hrun
      refine SessionInv_of_same res s _ hinv rfl rfl rfl ?_ ?_ <;>
        simp [State.call, live_contexts_append, live_surfaces_append, count_from,
          Event.ctx_delta, Event.surf_delta]
  | mmap addr len prot flags fd offset =>
    simp only [step, Option.map_eq_some'] at hstep
    obtain ⟨⟨r, s2⟩, hrun, rfl⟩ := hstep
    unfold mmap at hrun
    simp only at hrun
    split at hrun
    · split at hrun
      · simp only [Option.some.injEq, Prod.mk.injEq] at hrun
        obtain ⟨-, rfl⟩ := hrun
        refine SessionInv_of_same res s _ hinv rfl rfl rfl ?_ ?_ <;>
          simp [State.call, live_contexts_append, live_surfaces_append, count_from,
            Event.ctx_delta, Event.surf_delta]
      · exact absurd hrun (by simp)
    · simp only [Option.some.injEq, Prod.mk.injEq] at hrun
      obtain ⟨-, rfl⟩ := hrun
      refine SessionInv_of_same res s _ hinv rfl rfl rfl ?_ ?_ <;>
        simp [State.call, live_contexts_append, live_surfaces_append, count_from,
          Event.ctx_delta, Event.surf_delta]
  | munmap addr len =>
    simp only [step, Option.map_eq_some'] at hstep
    obtain ⟨⟨r, s2⟩, hrun, rfl⟩ := hstep
    unfold munmap at hrun
    simp only at hrun
    split at hrun <;>
      simp only [Option.some.injEq, Prod.mk.injEq] at hrun <;>
      obtain ⟨-, rfl⟩ := hrun <;>
      refine SessionInv_of_same res s _ hinv rfl rfl rfl ?_ ?_ <;>
      simp [State.call, live_contexts_append, live_surfaces_append, count_from,
        Event.ctx_delta, Event.surf_delta]
  | close fd =>
    simp only [step, Option.map_eq_some'] at hstep
    obtain ⟨⟨r, s2⟩, hrun, rfl⟩ := hstep
    by_cases hfd : fd = s.fb_fd
    · subst hfd
      cases hprim : s.primary with
      | null => simp [close, hprim] at hrun
      | released => simp [close, hprim] at hrun
      | live surf =>
        cases hdfb : s.dfb with
        | null => simp [close, hprim, hdfb, State.call] at hrun
        | released => simp [close, hprim, hdfb, State.call] at hrun
        | live u =>
          have hset : s.fb_fd ≠ -1 := by
            intro h
            exact (hinv.1 h).1 surf hprim
          obtain ⟨s3, h1, h2, -, h3, h4, h5⟩ := close_intercepted env s surf hprim hdfb
          rw [h1] at hrun
          simp only [Option.some.injEq, Prod.mk.injEq] at hrun
          obtain ⟨-, rfl⟩ := hrun
          refine ⟨fun _ => ⟨?_, ?_, ?_, ?_⟩, fun h => absurd h2 h⟩
          · intro surf2 h
            rw [h4] at h
            exact absurd h (by simp)
          · intro u2 h
            rw [h3] at h
            exact absurd h (by simp)
          · rw [h5, live_contexts_append, (hinv.2 hset).2.2.1]
            simp [count_from, Event.ctx_delta]
          · rw [h5, live_surfaces_append, (hinv.2 hset).2.2.2]
            simp [count_from, Event.surf_delta]
    · simp only [close, hfd, if_false, Option.some.injEq, Prod.mk.injEq] at hrun
      obtain ⟨-, rfl⟩ := hrun
      refine SessionInv_of_same res s _ hinv rfl rfl rfl ?_ ?_ <;>
        simp [State.call, live_contexts_append, live_surfaces_append, count_from,
          Event.ctx_delta, Event.surf_delta]

/-- A sequence of calls keeps the session invariant when each intercepted
`open` in it gets a descriptor other than -1 for "/dev/null" and a surface. -/
theorem run_preserves_SessionInv (env : Env) (res : DfbResults) (calls : List Call) :
    ∀ s s1 : State, SessionInv res s → SetupSucceedsAlong env res s calls →
      run env res s calls = some s1 → SessionInv res s1 := by
  induction calls with
  | nil =>
    intro s s1 hinv _ hrun
    simp only [run, Option.some.injEq] at hrun
    rw [← hrun]
    exact hinv
  | cons c cs ih =>
    intro s s1 hinv hok hrun
    simp only [run] at hrun
    cases hstep : step env res s c with
    | none => rw [hstep] at hrun; exact absurd hrun (by simp)
    | some s2 =>
      rw [hstep] at hrun
      exact ih s2 s1 (step_preserves_SessionInv env res s s2 c hinv hok.1 hstep)
        (hok.2 s2 hstep) hrun

/-- When the real `open` of "/dev/null" never returns -1 and `CreateSurface`
never fails, every intercepted `open` of every sequence is set up. -/
theorem SetupSucceedsAlong_of_always (env : Env) (res : DfbResults)
    (hopen : ∀ tr fl, env.real_open tr "/dev/null" fl none ≠ -1)
    (hsurf : ∀ tr, res.surface_ok tr = true) (calls : List Call) :
    ∀ s, SetupSucceedsAlong env res s calls := by
  induction calls with
  | nil => intro s; trivial
  | cons c cs ih =>
    intro s
    refine ⟨?_, fun s1 _ => ih s1⟩
    cases c with
    | «open» file oflag mode => exact fun _ _ => ⟨hopen _ _, hsurf _⟩
    | ioctl fd request arg mem => trivial
    | mmap addr len prot flags fd offset => trivial
    | munmap addr len => trivial
    | close fd => trivial


/-- C12 (counterexample): where the real `open` of "/dev/null" returns -1, one
`open("/dev/fb0", O_RDWR)` from the initial state leaves a live display
context and surface while `fb_fd` is -1, and a second one leaves two of each;
where `CreateSurface` fails, one such `open` leaves `fb_fd = 3` set with a live
context and no surface. -/
theorem two_contexts_when_descriptor_fails :
    (∃ s1 s2,
      run env_fail DfbResults.ok State.init [Call.open "/dev/fb0" 2 none] = some s1 ∧
      s1.fb_fd = -1 ∧ live_contexts DfbResults.ok s1.trace = 1 ∧
      live_surfaces DfbResults.ok s1.trace = 1 ∧
      run env_fail DfbResults.ok State.init
        [Call.open "/dev/fb0" 2 none, Call.open "/dev/fb0" 2 none] = some s2 ∧
      s2.fb_fd = -1 ∧ live_contexts DfbResults.ok s2.trace = 2 ∧
      live_surfaces DfbResults.ok s2.trace = 2) ∧
    (∃ s3,
      run env0 DfbResults.no_surface State.init [Call.open "/dev/fb0" 2 none] = some s3 ∧
      s3.fb_fd = 3 ∧ s3.fb_fd ≠ -1 ∧ live_contexts DfbResults.no_surface s3.trace = 1 ∧
      live_surfaces DfbResults.no_surface s3.trace = 0) := by
  refine ⟨?_, ?_⟩
  · obtain ⟨s1, h1, hfd1, -, -, -, htr1, -⟩ :=
      open_dfb_intercepted env_fail DfbResults.ok State.init "/dev/fb0" 2 none rfl
        (by decide) rfl
    have e1 : s1.fb_fd = -1 := hfd1
    obtain ⟨s2, h2, hfd2, -, -, -, htr2, -⟩ :=
      open_dfb_intercepted env_fail DfbResults.ok s1 "/dev/fb0" 2 none e1 (by decide) rfl
    have c1 : live_contexts DfbResults.ok s1.trace = 1 := by rw [htr1]; rfl
    have d1 : live_surfaces DfbResults.ok s1.trace = 1 := by rw [htr1]; rfl
    refine ⟨s1, s2, ?_, e1, c1, d1, ?_, hfd2, ?_, ?_⟩
    · simp [run, step, h1]
    · simp [run, step, h1, h2]
    · rw [htr2, live_contexts_append, setup_contexts, c1]; rfl
    · rw [htr2, live_surfaces_append, setup_surfaces, d1]; rfl
  · obtain ⟨s3, h3, hfd3, -, -, -, htr3, -⟩ :=
      open_dfb_intercepted env0 DfbResults.no_surface State.init "/dev/fb0" 2 none rfl
        (by decide) rfl
    have e3 : s3.fb_fd = 3 := hfd3
    refine ⟨s3, ?_, e3, ?_, ?_, ?_⟩
    · simp [run, step, h3]
    · rw [e3]; decide
    · rw [htr3]; rfl
    · rw [htr3]; rfl

/-- C12 (amended): provided that in every intercepted `open` of the sequence
the real `open` of "/dev/null" does not return -1 and `CreateSurface` succeeds,
in every state reached from the initial state by a sequence of calls of `open`,
`ioctl`, `mmap`, `munmap` and `close` (a framebuffer-path `open` during a
session included), the numbers of display contexts and of surfaces created and
not yet released are 0 or 1, and each is 1 exactly when `fb_fd` is not -1. -/
theorem singleton_session (env : Env) (res : DfbResults) (calls : List Call) (s : State)
    (hok : SetupSucceedsAlong env res State.init calls)
    (hrun : run env res State.init calls = some s) :
    0 ≤ live_contexts res s.trace ∧ live_contexts res s.trace ≤ 1 ∧
      0 ≤ live_surfaces res s.trace ∧ live_surfaces res s.trace ≤ 1 ∧
      (live_contexts res s.trace = 1 ↔ s.fb_fd ≠ -1) ∧
      (live_surfaces res s.trace = 1 ↔ s.fb_fd ≠ -1) := by
  have hinv : SessionInv res s :=
    run_preserves_SessionInv env res calls State.init s (SessionInv_init res) hok hrun
  by_cases hfd : s.fb_fd = -1
  · obtain ⟨-, -, hc, hs⟩ := hinv.1 hfd
    rw [hc, hs]
    simp [hfd]
  · obtain ⟨-, -, hc, hs⟩ := hinv.2 hfd
    rw [hc, hs]
    simp [hfd]

/-- C12 (witness): open a framebuffer, open another framebuffer path during the
session, close the session and open again: one context and one surface live. -/
theorem singleton_session_witness :
    ∃ s, run env0 DfbResults.ok State.init
        [Call.open "/dev/fb0" 2 none, Call.open "/dev/fb1" 2 none, Call.close 3,
          Call.open "/dev/fb0" 2 none] = some s ∧
      live_contexts DfbResults.ok s.trace = 1 ∧ live_surfaces DfbResults.ok s.trace = 1 ∧
      s.fb_fd ≠ -1 := by
  obtain ⟨s1, h1, hfd1, -, hdfb1, hprim1, -, -⟩ :=
    open_dfb_intercepted env0 DfbResults.ok State.init "/dev/fb0" 2 none rfl (by decide) rfl
  have e1 : s1.fb_fd = 3 := hfd1
  have h2 := open_dfb_forwarded env0 DfbResults.ok s1 "/dev/fb1" 2 none
    (Or.inl (by rw [e1]; decide))
  generalize hs2 : State.call env0
    { s1 with _open := true, entered := s1.entered ++ [EntryPoint.open] }
    (Event.real_open "/dev/fb1" 2 none) = s2 at h2
  have hprim2 : s2.primary = Ref.live (env0.CreateSurface (setup_history State.init 2)) := by
    rw [← hs2]; exact hprim1
  have hdfb2 : s2.dfb = Ref.live () := by rw [← hs2]; exact hdfb1
  have e3 : s2.fb_fd = 3 := by rw [← hs2]; exact e1
  obtain ⟨s3, h3, hfd3, -, -, -, -⟩ := close_intercepted env0 s2 _ hprim2 hdfb2
  rw [e3] at h3
  obtain ⟨s4, h4, hfd4, -, -, -, -, -⟩ :=
    open_dfb_intercepted env0 DfbResults.ok s3 "/dev/fb0" 2 none hfd3 (by decide) rfl
  have hrun : run env0 DfbResults.ok State.init
      [Call.open "/dev/fb0" 2 none, Call.open "/dev/fb1" 2 none, Call.close 3,
        Call.open "/dev/fb0" 2 none] = some s4 := by
    simp [run, step, h1, h2, h3, h4]
  have hset : s4.fb_fd ≠ -1 := by rw [hfd4]; exact (by decide : (3 : Int) ≠ -1)
  have hok : SetupSucceedsAlong env0 DfbResults.ok State.init
      [Call.open "/dev/fb0" 2 none, Call.open "/dev/fb1" 2 none, Call.close 3,
        Call.open "/dev/fb0" 2 none] :=
    SetupSucceedsAlong_of_always env0 DfbResults.ok
      (fun _ _ => (by decide : (3 : Int) ≠ -1)) (fun _ => rfl) _ _
  obtain ⟨-, -, -, -, hc, hs⟩ := singleton_session env0 DfbResults.ok _ s4 hok hrun
  exact ⟨s4, hrun, hc.mpr hset, hs.mpr hset, hset⟩

end DirectFBFbdev
